import Mathlib

/-!
Verification development for the iFood refund-decision agent
(`motor_politicas.py`, `busca_semantica.py`, `integracao_llm.py`,
`tratamento_erros.py`, `main_v2.py`).

The Python sources are shallowly embedded: pure functions become Lean
functions, code that may raise becomes `Except`-valued, Python `float`
arithmetic is idealised as exact rational (`ℚ`) arithmetic, and the
real-valued TF-IDF layer (which uses `math.log` and `math.sqrt`) is
idealised over `ℝ`.  Python dictionaries whose insertion order matters
are embedded as association lists.  Identifier names follow the source,
with leading underscores dropped.
-/

deriving instance DecidableEq for Except

namespace IFood

/-! ## Python-style text primitives (busca_semantica.ProcessadorTexto)

`ProcessadorTexto.normalizar` does `texto.lower()`, then
`re.sub(r'[^\w\s]', ' ', texto)`, then `re.sub(r'\s+', ' ', texto).strip()`.
We model `str.lower` as ASCII lowercasing (the knowledge-base texts only
contain already-lowercase non-ASCII letters), `\w` as ASCII alphanumerics,
underscore, or any code point ≥ 0x80 (Python's Unicode `\w` on the
Portuguese texts of this repository is exactly the accented letters), and
`\s` as the ASCII whitespace class. -/

def pyLower (c : Char) : Char :=
  if 65 ≤ c.toNat ∧ c.toNat ≤ 90 then Char.ofNat (c.toNat + 32)
  else if 0xC0 ≤ c.toNat ∧ c.toNat ≤ 0xDE ∧ c.toNat ≠ 0xD7 then Char.ofNat (c.toNat + 32)
  else c

def isPySpace (c : Char) : Bool :=
  c = ' ' || c = '\t' || c = '\n' || c = '\r' || c = '\x0b' || c = '\x0c'

def isWordChar (c : Char) : Bool :=
  c.isAlphanum || c = '_' || decide (128 ≤ c.toNat)

/-- One character of `lower` + `re.sub(r'[^\w\s]', ' ', ·)`: lowercase,
then replace anything that is neither a word character nor whitespace
by a space. -/
def normStep (c : Char) : Char :=
  let c' := pyLower c
  if isWordChar c' then c' else if isPySpace c' then c' else ' '

/-- Split a character list into maximal runs of non-whitespace characters
(the combined effect of `re.sub(r'\s+', ' ', ·).strip()` followed by
`str.split()` is recovered by interspersing single spaces). -/
def splitWords : List Char → List (List Char)
  | [] => []
  | [c] => if isPySpace c then [] else [[c]]
  | c :: d :: cs =>
    if isPySpace c then splitWords (d :: cs)
    else if isPySpace d then [c] :: splitWords (d :: cs)
    else
      match splitWords (d :: cs) with
      | r :: rs => (c :: r) :: rs
      | [] => [[c]]

/-- `ProcessadorTexto.normalizar`. -/
def normalizar (texto : String) : String :=
  (List.intercalate [' '] (splitWords (texto.toList.map normStep))).asString

/-- `ProcessadorTexto.STOPWORDS`. -/
def STOPWORDS : List String :=
  ["a", "o", "e", "de", "da", "do", "em", "um", "uma", "para", "com",
   "não", "que", "se", "na", "no", "os", "as", "por", "mais", "foi",
   "como", "mas", "ao", "ele", "das", "tem", "à", "seu", "sua", "ou",
   "ser", "quando", "muito", "há", "nos", "já", "está", "eu", "também",
   "só", "pelo", "pela", "até", "isso", "ela", "entre", "era", "depois",
   "sem", "mesmo", "aos", "ter", "seus", "quem", "nas", "me", "esse",
   "eles", "estão", "você", "tinha", "foram", "essa", "num", "nem",
   "suas", "meu", "minha", "têm", "numa", "pelos", "elas", "havia",
   "seja", "qual", "será", "nós", "tenho", "lhe", "deles", "essas",
   "esses", "pelas", "este", "fosse", "dele", "tu", "te", "vocês"]

/-- `ProcessadorTexto.SINONIMOS`. -/
def SINONIMOS : List (String × List String) :=
  [("cancelar", ["cancelamento", "desistir", "desistência", "anular"]),
   ("reembolso", ["reembolsar", "devolução", "devolver", "estorno", "estornar"]),
   ("erro", ["errado", "incorreto", "falha", "problema", "defeito"]),
   ("pedido", ["compra", "ordem", "encomenda"]),
   ("entrega", ["entregar", "entregue", "chegou", "recebido", "receber"]),
   ("cobrado", ["cobrança", "cobrar", "pago", "pagamento", "valor"]),
   ("atraso", ["atrasado", "demorou", "demora", "lento"]),
   ("fraude", ["fraudulento", "suspeito", "invadido", "hackeado"]),
   ("duplicado", ["duplicada", "duas vezes", "dobrado", "repetido"])]

/-- `ProcessadorTexto.tokenizar`: split the normalised text into words and,
when `remover_stopwords` is set, drop stopwords and tokens of length ≤ 2. -/
def tokenizar (texto : String) (remover_stopwords : Bool := true) : List String :=
  let tokens := (splitWords (texto.toList.map normStep)).map List.asString
  if remover_stopwords then
    tokens.filter (fun t => decide (t ∉ STOPWORDS) && decide (2 < t.length))
  else tokens

/-- `ProcessadorTexto.expandir_sinonimos`: the Python `set` build is
embedded as a duplicate-free list with the same membership (downstream
code only uses membership, multiplicity one per element, and cardinality). -/
def expandir_sinonimos (tokens : List String) : List String :=
  (tokens ++
   tokens.flatMap (fun t => ((SINONIMOS.lookup t).getD [])) ++
   tokens.flatMap (fun t =>
     SINONIMOS.flatMap (fun ps => if t ∈ ps.2 then ps.1 :: ps.2 else []))).dedup

/-! ## Defensive numeric parsing (Python `int(...)` / `float(...)`)

`int(s)` and `float(s)` are modelled on the decimal fragment actually fed
to them by this repository (optional sign, digits, one decimal point);
exponents, underscores, `inf`/`nan` and non-decimal bases are outside the
model.  Failure is `none`, matching the `ValueError` the callers catch. -/

def digitsToNat (ds : List Char) : ℕ :=
  ds.foldl (fun acc d => acc * 10 + (d.toNat - '0'.toNat)) 0

/-- Python's `str.strip()` (whitespace from both ends). -/
def pyStrip (cs : List Char) : List Char :=
  ((cs.dropWhile isPySpace).reverse.dropWhile isPySpace).reverse

def pyStripStr (s : String) : String := (pyStrip s.toList).asString

/-- Python's `str.replace(pat, repl)` — leftmost, non-overlapping (the
patterns used in this repository are non-empty). -/
def replaceList (pat repl : List Char) (cs : List Char) : List Char :=
  match cs with
  | [] => []
  | c :: rest =>
    if h : pat ≠ [] ∧ pat.isPrefixOf (c :: rest) then
      repl ++ replaceList pat repl ((c :: rest).drop pat.length)
    else
      c :: replaceList pat repl rest
termination_by cs.length
decreasing_by
  · have hpos : 0 < pat.length := List.length_pos.mpr h.1
    simp only [List.length_drop, List.length_cons]
    omega
  · simp

def pyReplace (s pat repl : String) : String :=
  (replaceList pat.toList repl.toList s.toList).asString

def pyInt (s : String) : Option ℤ :=
  let go : List Char → Option ℕ := fun cs =>
    if cs ≠ [] ∧ cs.all Char.isDigit then some (digitsToNat cs) else none
  match pyStrip s.toList with
  | '+' :: rest => (go rest).map (fun n => (n : ℤ))
  | '-' :: rest => (go rest).map (fun n => -(n : ℤ))
  | rest => (go rest).map (fun n => (n : ℤ))

def pyFloat (s : String) : Option ℚ :=
  let core : List Char → Option ℚ := fun cs =>
    let d1 := cs.takeWhile Char.isDigit
    match cs.drop d1.length with
    | [] => if d1 ≠ [] then some (digitsToNat d1) else none
    | '.' :: d2 =>
      if d2.all Char.isDigit ∧ (d1 ≠ [] ∨ d2 ≠ []) then
        some ((digitsToNat d1 : ℚ) + (digitsToNat d2 : ℚ) / 10 ^ d2.length)
      else none
    | _ => none
  match pyStrip s.toList with
  | '+' :: rest => core rest
  | '-' :: rest => (core rest).map (fun q => -q)
  | rest => core rest

/-- Python's `round(q, 3)` (round half to even), idealised over `ℚ`. -/
def roundHalfEven (q : ℚ) : ℤ :=
  let f := ⌊q⌋
  let r := q - (f : ℚ)
  if r < 1 / 2 then f
  else if 1 / 2 < r then f + 1
  else if f % 2 = 0 then f else f + 1

def round3 (q : ℚ) : ℚ := (roundHalfEven (q * 1000) : ℚ) / 1000

/-- Python's `f"{q:.2f}"` formatting, used in rule justifications. -/
def fmt2 (q : ℚ) : String :=
  let n := roundHalfEven (q * 100)
  let sgn : String := if n < 0 then "-" else ""
  let m := n.natAbs
  sgn ++ toString (m / 100) ++ "." ++ (if m % 100 < 10 then "0" else "") ++ toString (m % 100)

/-! ## Claim context (the `contexto` dictionaries of `main_v2` / `motor_politicas`)

The context dictionary carries the keys `categoria`, `motivo`, `status`
(strings, possibly absent) and `detalhes_adicionais`.  The latter should
be a string-to-string mapping, but the pipeline never validates this, so
the embedding keeps a `nondict` constructor: calling `.get` on such a
value raises `AttributeError`, which `motor_politicas` does **not** catch
(its `except` clauses only cover `ValueError`/`TypeError`). -/

inductive Detalhes where
  | dict (entries : List (String × String))
  | nondict
deriving DecidableEq, Repr

structure Contexto where
  categoria : Option String := none
  motivo : Option String := none
  status : Option String := none
  detalhes_adicionais : Option Detalhes := none
deriving DecidableEq, Repr

/-- `detalhes.get(key, dflt)`: raises `AttributeError` on a non-mapping. -/
def dictGet (d : Detalhes) (key dflt : String) : Except String String :=
  match d with
  | .dict entries => .ok ((entries.lookup key).getD dflt)
  | .nondict => .error "AttributeError: no attribute get"

/-! ## motor_politicas.py -/

inductive DecisaoTipo where
  | APROVAR | REJEITAR | ESCALAR | ANALISE_MANUAL
deriving DecidableEq, Repr

inductive ConfiancaNivel where
  | ALTA | MEDIA | BAIXA
deriving DecidableEq, Repr

/-- Values stored in a `ResultadoPolitica.fatores` dictionary (strings,
numbers, booleans, and `None` for an absent wait time). -/
inductive FatorVal where
  | s (v : String) | i (v : ℤ) | q (v : ℚ) | b (v : Bool) | none
deriving DecidableEq, Repr

structure ResultadoPolitica where
  decisao : DecisaoTipo
  confianca : ConfiancaNivel
  codigo_politica : String
  justificativa : String
  pontuacao : ℚ := 0
  fatores : List (String × FatorVal) := []
deriving DecidableEq, Repr

def TEMPO_LIMITE_CANCELAMENTO_GRATUITO : ℤ := 5
def TEMPO_ATRASO_SIGNIFICATIVO : ℤ := 30
def TEMPO_ATRASO_CRITICO : ℤ := 60
def VALOR_BAIXO : ℚ := 30
def VALOR_MEDIO : ℚ := 100
def VALOR_ALTO : ℚ := 300

/-- `MotorPoliticasExpandido._extrair_valor`: the `try` only catches
`ValueError`/`TypeError` (absorbed into `pyFloat`'s `none`); an
`AttributeError` from `.get` on a non-mapping escapes. -/
def extrair_valor (contexto : Contexto) : Except String (Option ℚ) := do
  let detalhes := contexto.detalhes_adicionais.getD (.dict [])
  let valor_str ← dictGet detalhes "valor_pedido" ""
  if valor_str ≠ "" then
    pure (pyFloat (pyStripStr (pyReplace (pyReplace valor_str "," ".") "R$" "")))
  else
    pure Option.none

/-- `MotorPoliticasExpandido._extrair_tempo_espera` (same exception shape). -/
def extrair_tempo_espera (contexto : Contexto) : Except String (Option ℤ) := do
  let detalhes := contexto.detalhes_adicionais.getD (.dict [])
  let tempo_str ← dictGet detalhes "tempo_espera" ""
  if tempo_str ≠ "" then
    pure (pyInt tempo_str)
  else
    pure Option.none

def regra_fraude_detectada (contexto : Contexto) :
    Except String (Option ResultadoPolitica) :=
  .ok <|
  if contexto.categoria = some "fraude" ∧ contexto.motivo = some "COMPRA_NAO_RECONHECIDA" then
    some { decisao := .ANALISE_MANUAL, confianca := .ALTA, codigo_politica := "FRAUDE_F1",
           justificativa := "Compra não reconhecida detectada. Encaminhando para equipe antifraude com bloqueio preventivo.",
           pontuacao := 0.95,
           fatores := [("categoria", .s "fraude"), ("acao_imediata", .s "bloqueio_preventivo")] }
  else none

def regra_conta_comprometida (contexto : Contexto) :
    Except String (Option ResultadoPolitica) :=
  .ok <|
  if contexto.categoria = some "fraude" ∧ contexto.motivo = some "CONTA_COMPROMETIDA" then
    some { decisao := .ANALISE_MANUAL, confianca := .ALTA, codigo_politica := "FRAUDE_F2",
           justificativa := "Conta possivelmente comprometida. Bloqueio preventivo ativado e encaminhado para equipe de segurança.",
           pontuacao := 0.98,
           fatores := [("categoria", .s "fraude"), ("urgencia", .s "critica"), ("acao", .s "bloqueio_conta")] }
  else none

def regra_multiplos_reembolsos_suspeito (contexto : Contexto) :
    Except String (Option ResultadoPolitica) :=
  .ok <|
  if contexto.motivo = some "MULTIPLAS_COBRANCAS" then
    some { decisao := .ANALISE_MANUAL, confianca := .MEDIA, codigo_politica := "FRAUDE_F3",
           justificativa := "Múltiplas cobranças detectadas. Requer análise financeira detalhada.",
           pontuacao := 0.75,
           fatores := [("categoria", .s "fraude"), ("tipo", .s "multiplas_cobrancas")] }
  else none

def regra_cancelamento_restaurante (contexto : Contexto) :
    Except String (Option ResultadoPolitica) :=
  .ok <|
  if contexto.motivo = some "CANCELAMENTO_RESTAURANTE" then
    some { decisao := .APROVAR, confianca := .ALTA, codigo_politica := "CANCELAMENTO_C1",
           justificativa := "Cancelamento realizado pelo restaurante. Reembolso total automático conforme Política 2.1.",
           pontuacao := 1.0,
           fatores := [("responsavel", .s "restaurante"), ("reembolso", .s "total")] }
  else none

def regra_erro_app_comprovado (contexto : Contexto) :
    Except String (Option ResultadoPolitica) :=
  .ok <|
  if contexto.motivo = some "ERRO_APP" then
    some { decisao := .APROVAR, confianca := .ALTA, codigo_politica := "CANCELAMENTO_C2",
           justificativa := "Erro do aplicativo confirmado. Reembolso total automático conforme Política 2.1.",
           pontuacao := 1.0,
           fatores := [("responsavel", .s "aplicativo"), ("reembolso", .s "total")] }
  else none

def regra_pedido_nao_confirmado (contexto : Contexto) :
    Except String (Option ResultadoPolitica) :=
  .ok <|
  if contexto.status = some "AGUARDANDO_CONFIRMACAO" ∧
     contexto.motivo.getD "" ∈ ["ARREPENDIMENTO_CLIENTE", "CANCELAMENTO_RESTAURANTE", "ERRO_APP"] then
    some { decisao := .APROVAR, confianca := .ALTA, codigo_politica := "CANCELAMENTO_C3",
           justificativa := "Pedido ainda não confirmado pelo restaurante. Cancelamento permitido com reembolso total.",
           pontuacao := 1.0,
           fatores := [("status", .s "pre_confirmacao"), ("reembolso", .s "total")] }
  else none

def regra_erro_restaurante (contexto : Contexto) :
    Except String (Option ResultadoPolitica) :=
  .ok <|
  if contexto.motivo = some "ERRO_RESTAURANTE" then
    some { decisao := .APROVAR, confianca := .ALTA, codigo_politica := "ERRO_E1",
           justificativa := "Erro do restaurante confirmado. Reembolso total aprovado conforme Política 2.1.",
           pontuacao := 0.95,
           fatores := [("responsavel", .s "restaurante"), ("tipo_erro", .s "preparo")] }
  else none

def regra_erro_entregador (contexto : Contexto) :
    Except String (Option ResultadoPolitica) :=
  .ok <|
  if contexto.motivo = some "ERRO_ENTREGADOR" then
    some { decisao := .APROVAR, confianca := .ALTA, codigo_politica := "ERRO_E2",
           justificativa := "Erro do entregador confirmado. Reembolso aprovado conforme Política 2.2.",
           pontuacao := 0.90,
           fatores := [("responsavel", .s "entregador"), ("tipo_erro", .s "entrega")] }
  else none

def regra_pedido_nao_recebido (contexto : Contexto) :
    Except String (Option ResultadoPolitica) := do
  if contexto.motivo = some "NAO_RECEBIDO" then
    let valor ← extrair_valor contexto
    match valor with
    | some v =>
      if v ≠ 0 ∧ VALOR_ALTO < v then
        pure (some { decisao := .ANALISE_MANUAL, confianca := .MEDIA,
                     codigo_politica := "ENTREGA_D1_ALTO_VALOR",
                     justificativa := s!"Pedido não recebido com valor alto (R${fmt2 v}). Requer validação manual.",
                     pontuacao := 0.70,
                     fatores := [("problema", .s "nao_recebido"), ("valor", .q v), ("analise", .s "manual")] })
      else
        pure (some { decisao := .APROVAR, confianca := .MEDIA, codigo_politica := "ENTREGA_D1",
                     justificativa := "Pedido não recebido. Aprovado para reembolso após validação do status.",
                     pontuacao := 0.80,
                     fatores := [("problema", .s "nao_recebido"), ("validacao", .s "status_entrega")] })
    | none =>
      pure (some { decisao := .APROVAR, confianca := .MEDIA, codigo_politica := "ENTREGA_D1",
                   justificativa := "Pedido não recebido. Aprovado para reembolso após validação do status.",
                   pontuacao := 0.80,
                   fatores := [("problema", .s "nao_recebido"), ("validacao", .s "status_entrega")] })
  else
    pure none

def regra_pedido_incompleto (contexto : Contexto) :
    Except String (Option ResultadoPolitica) :=
  .ok <|
  if contexto.motivo = some "INCOMPLETO" then
    some { decisao := .APROVAR, confianca := .MEDIA, codigo_politica := "ENTREGA_D2",
           justificativa := "Pedido incompleto. Reembolso parcial aprovado para itens faltantes.",
           pontuacao := 0.85,
           fatores := [("problema", .s "incompleto"), ("reembolso", .s "parcial")] }
  else none

def regra_cobranca_duplicada (contexto : Contexto) :
    Except String (Option ResultadoPolitica) :=
  .ok <|
  if contexto.motivo = some "COBRANCA_DUPLICADA" then
    some { decisao := .APROVAR, confianca := .ALTA, codigo_politica := "FINANCEIRO_FIN1",
           justificativa := "Cobrança duplicada confirmada. Estorno automático da segunda cobrança.",
           pontuacao := 0.95,
           fatores := [("tipo", .s "cobranca_duplicada"), ("acao", .s "estorno_automatico")] }
  else none

def regra_cobranca_pos_cancelamento (contexto : Contexto) :
    Except String (Option ResultadoPolitica) :=
  .ok <|
  if contexto.motivo = some "COBRANCA_POS_CANCELAMENTO" then
    some { decisao := .APROVAR, confianca := .ALTA, codigo_politica := "FINANCEIRO_FIN2",
           justificativa := "Cobrança indevida após cancelamento. Estorno aprovado.",
           pontuacao := 0.90,
           fatores := [("tipo", .s "cobranca_indevida"), ("acao", .s "estorno")] }
  else none

/-- `MotorPoliticasExpandido._regra_atraso_excessivo`.  Python's
`if tempo and tempo >= X` is falsy for `tempo == 0` and `tempo == None`,
hence the explicit `t ≠ 0` conjuncts. -/
def regra_atraso_excessivo (contexto : Contexto) :
    Except String (Option ResultadoPolitica) := do
  if contexto.motivo = some "ATRASO_ENTREGA" then
    let tempo ← extrair_tempo_espera contexto
    match tempo with
    | some t =>
      if t ≠ 0 ∧ TEMPO_ATRASO_CRITICO ≤ t then
        pure (some { decisao := .APROVAR, confianca := .ALTA, codigo_politica := "ATRASO_A1_CRITICO",
                     justificativa := s!"Atraso crítico de {t} minutos. Reembolso total aprovado.",
                     pontuacao := 0.95,
                     fatores := [("tempo_espera", .i t), ("nivel", .s "critico")] })
      else if t ≠ 0 ∧ TEMPO_ATRASO_SIGNIFICATIVO ≤ t then
        pure (some { decisao := .APROVAR, confianca := .MEDIA,
                     codigo_politica := "ATRASO_A1_SIGNIFICATIVO",
                     justificativa := s!"Atraso significativo de {t} minutos. Compensação aprovada.",
                     pontuacao := 0.80,
                     fatores := [("tempo_espera", .i t), ("nivel", .s "significativo"), ("reembolso", .s "parcial")] })
      else
        pure (some { decisao := .ESCALAR, confianca := .BAIXA, codigo_politica := "ATRASO_A1_MODERADO",
                     justificativa := "Atraso reportado. Requer análise do tempo estimado vs real.",
                     pontuacao := 0.50,
                     fatores := [("tempo_espera", .i t), ("nivel", .s "moderado")] })
    | none =>
      pure (some { decisao := .ESCALAR, confianca := .BAIXA, codigo_politica := "ATRASO_A1_MODERADO",
                   justificativa := "Atraso reportado. Requer análise do tempo estimado vs real.",
                   pontuacao := 0.50,
                   fatores := [("tempo_espera", .none), ("nivel", .s "moderado")] })
  else
    pure none

def regra_arrependimento_antes_preparo (contexto : Contexto) :
    Except String (Option ResultadoPolitica) :=
  .ok <|
  if contexto.motivo = some "ARREPENDIMENTO_CLIENTE" ∧
     (contexto.status = some "AGUARDANDO_CONFIRMACAO" ∨ contexto.status = some "EM_PREPARACAO") then
    some { decisao := .APROVAR, confianca := .ALTA, codigo_politica := "ARREPENDIMENTO_R1",
           justificativa := "Cancelamento por arrependimento antes da saída para entrega. Reembolso aprovado.",
           pontuacao := 0.90,
           fatores := [("motivo", .s "arrependimento"), ("fase", .s "pre_entrega")] }
  else none

def regra_arrependimento_apos_saida (contexto : Contexto) :
    Except String (Option ResultadoPolitica) :=
  .ok <|
  if contexto.motivo = some "ARREPENDIMENTO_CLIENTE" ∧
     (contexto.status = some "SAIU_PARA_ENTREGA" ∨ contexto.status = some "ENTREGUE") then
    some { decisao := .REJEITAR, confianca := .ALTA, codigo_politica := "ARREPENDIMENTO_R2",
           justificativa := "Desistência após saída para entrega não é elegível para reembolso conforme Política 4.1.",
           pontuacao := 0.95,
           fatores := [("motivo", .s "arrependimento"), ("fase", .s "pos_saida"), ("elegivel", .b false)] }
  else none

def regra_valor_alto_analise_manual (contexto : Contexto) :
    Except String (Option ResultadoPolitica) := do
  let valor ← extrair_valor contexto
  match valor with
  | some v =>
    if v ≠ 0 ∧ VALOR_ALTO < v ∧ ¬ contexto.categoria = some "fraude" then
      pure (some { decisao := .ANALISE_MANUAL, confianca := .MEDIA, codigo_politica := "VALOR_V1",
                   justificativa := s!"Pedido de alto valor (R${fmt2 v}) requer análise manual adicional.",
                   pontuacao := 0.60,
                   fatores := [("valor", .q v), ("motivo", .s "alto_valor")] })
    else pure none
  | none => pure none

/-- The priority-ordered rule list of `MotorPoliticasExpandido.avaliar`. -/
def regras : List (Contexto → Except String (Option ResultadoPolitica)) :=
  [regra_fraude_detectada,
   regra_conta_comprometida,
   regra_cancelamento_restaurante,
   regra_erro_app_comprovado,
   regra_pedido_nao_confirmado,
   regra_erro_restaurante,
   regra_erro_entregador,
   regra_pedido_nao_recebido,
   regra_pedido_incompleto,
   regra_cobranca_duplicada,
   regra_cobranca_pos_cancelamento,
   regra_atraso_excessivo,
   regra_arrependimento_antes_preparo,
   regra_arrependimento_apos_saida,
   regra_valor_alto_analise_manual,
   regra_multiplos_reembolsos_suspeito]

def avaliarAux (rs : List (Contexto → Except String (Option ResultadoPolitica)))
    (contexto : Contexto) : Except String (Option ResultadoPolitica) :=
  match rs with
  | [] => .ok none
  | regra :: resto => do
    match ← regra contexto with
    | some resultado => pure (some resultado)
    | none => avaliarAux resto contexto

/-- `MotorPoliticasExpandido.avaliar`: first matching rule wins; `none`
when no rule fires; an error when a reached rule raises.  (The
`regras_executadas` audit list is bookkeeping on the engine object and is
not modelled.) -/
def avaliar (contexto : Contexto) : Except String (Option ResultadoPolitica) :=
  avaliarAux regras contexto

/-! ## motor_politicas.SistemaScoring -/

structure ScoresParciais where
  tipo_problema : ℚ
  valor_pedido : ℚ
  status_pedido : ℚ
  motivo : ℚ
  politica : ℚ
deriving DecidableEq, Repr

structure ResultadoScore where
  score_final : ℚ
  scores_parciais : ScoresParciais
  recomendacao : String
deriving DecidableEq, Repr

/-- `SistemaScoring.PESOS` (declared in the source but not used by
`calcular_score`, which hard-codes its weights). -/
def PESOS : List (String × ℚ) :=
  [("historico_cliente", 0.15), ("valor_pedido", 0.20), ("tipo_problema", 0.25),
   ("tempo_resposta", 0.10), ("evidencias", 0.20), ("politica_aplicavel", 0.10)]

def score_tipo_problema (contexto : Contexto) : ℚ :=
  ((([("fraude", 0.9), ("entrega", 0.8), ("reembolso", 0.7),
      ("financeiro", 0.75), ("suporte", 0.5)] : List (String × ℚ)).lookup
    (contexto.categoria.getD "")).getD 0.5)

/-- `SistemaScoring._score_valor`: its `try` catches only
`ValueError`/`TypeError`; `.get` on a non-mapping raises through. -/
def score_valor (contexto : Contexto) : Except String ℚ := do
  let detalhes := contexto.detalhes_adicionais.getD (.dict [])
  let valor_str ← dictGet detalhes "valor_pedido" ""
  if valor_str ≠ "" then
    match pyFloat (pyStripStr (pyReplace (pyReplace valor_str "," ".") "R$" "")) with
    | some valor =>
      if valor ≤ 30 then pure 0.9
      else if valor ≤ 100 then pure 0.7
      else if valor ≤ 300 then pure 0.5
      else pure 0.3
    | none => pure 0.5
  else
    pure 0.5

def score_status (contexto : Contexto) : ℚ :=
  ((([("AGUARDANDO_CONFIRMACAO", 0.95), ("EM_PREPARACAO", 0.7),
      ("SAIU_PARA_ENTREGA", 0.4), ("ENTREGUE", 0.3),
      ("DESCONHECIDO", 0.5)] : List (String × ℚ)).lookup
    (contexto.status.getD "")).getD 0.5)

def score_motivo (contexto : Contexto) : ℚ :=
  ((([("CANCELAMENTO_RESTAURANTE", 1.0), ("ERRO_RESTAURANTE", 0.95),
      ("ERRO_APP", 0.95), ("ERRO_ENTREGADOR", 0.9), ("NAO_RECEBIDO", 0.85),
      ("COBRANCA_DUPLICADA", 0.9), ("COBRANCA_POS_CANCELAMENTO", 0.9),
      ("INCOMPLETO", 0.75), ("PEDIDO_ERRADO", 0.75), ("ATRASO_ENTREGA", 0.6),
      ("VALOR_INCORRETO", 0.7), ("ARREPENDIMENTO_CLIENTE", 0.3),
      ("COMPRA_NAO_RECONHECIDA", 0.8), ("CONTA_COMPROMETIDA", 0.85),
      ("MULTIPLAS_COBRANCAS", 0.7)] : List (String × ℚ)).lookup
    (contexto.motivo.getD "")).getD 0.5)

def gerar_recomendacao (score : ℚ) : String :=
  if 0.8 ≤ score then "APROVAR - Alta confiança na elegibilidade"
  else if 0.6 ≤ score then "APROVAR_COM_ANALISE - Requer validação adicional"
  else if 0.4 ≤ score then "ESCALAR - Caso requer análise humana"
  else "REJEITAR - Baixa elegibilidade para reembolso"

/-- `SistemaScoring.calcular_score`. -/
def calcular_score (contexto : Contexto) (resultado_politica : Option ResultadoPolitica) :
    Except String ResultadoScore := do
  let tipo_problema := score_tipo_problema contexto
  let valor_pedido ← score_valor contexto
  let status_pedido := score_status contexto
  let motivo := score_motivo contexto
  let politica : ℚ :=
    match resultado_politica with
    | some r => r.pontuacao
    | none => 0.5
  let score_final :=
    tipo_problema * 0.25 + valor_pedido * 0.15 + status_pedido * 0.15 +
    motivo * 0.25 + politica * 0.20
  pure { score_final := round3 score_final,
         scores_parciais :=
           ⟨tipo_problema, valor_pedido, status_pedido, motivo, politica⟩,
         recomendacao := gerar_recomendacao score_final }

/-! ## busca_semantica.py — knowledge base and TF-IDF retrieval

Python `float` arithmetic (`math.log`, `math.sqrt`, division) is
idealised over `ℝ`; the TF-IDF dictionaries are association lists with
pairwise-distinct keys (they are built from `collections.Counter`, whose
keys are unique).  `dict.get(t, 0)` becomes `dget`. -/

section BuscaSemantica

open scoped Classical

structure ItemConhecimento where
  categoria : String
  pergunta : String
  resposta : String
  fonte : String
deriving DecidableEq, Repr, Inhabited

structure ResultadoBusca where
  item : ItemConhecimento
  score_similaridade : ℝ
  metodo_match : String

structure MotorTFIDF where
  idf : String → ℝ
  documentos_tfidf : List (List (String × ℝ))
  num_documentos : ℕ

def dget (l : List (String × ℝ)) (t : String) : ℝ := (l.lookup t).getD 0

def dictKeys (l : List (String × ℝ)) : Finset String := (l.map Prod.fst).toFinset

/-- `sum(v**2 for v in d.values())`. -/
def sumSqVals (l : List (String × ℝ)) : ℝ := (l.map (fun p => p.2 ^ 2)).sum

/-- The cosine numerator: iteration over `set(q) | set(d)` with
`.get(termo, 0)` lookups (a set-indexed sum, so iteration order is
irrelevant over `ℝ`). -/
noncomputable def dotProduct (q d : List (String × ℝ)) : ℝ :=
  ∑ t ∈ dictKeys q ∪ dictKeys d, dget q t * dget d t

/-- `MotorTFIDF.construir_indice`.  `df` counts documents containing a
term; `idf` is the dictionary `{t ↦ log(N / (1 + df t))}` read through
`.get(t, 0)`, hence `0` for terms of no document. -/
noncomputable def construir_indice (documentos : List String) : MotorTFIDF :=
  let documentos_tokens := documentos.map (fun doc => tokenizar doc true)
  let df : String → ℕ := fun t => (documentos_tokens.filter (fun tokens => t ∈ tokens)).length
  let idf : String → ℝ := fun t =>
    if df t = 0 then 0 else Real.log ((documentos.length : ℝ) / (1 + (df t : ℝ)))
  let tfidfDoc : List String → List (String × ℝ) := fun tokens =>
    tokens.dedup.map (fun t => (t, ((tokens.count t : ℝ) / (tokens.length : ℝ)) * idf t))
  { idf := idf
    documentos_tfidf := documentos_tokens.map tfidfDoc
    num_documentos := documentos.length }

/-- The query-side TF-IDF dictionary of
`MotorTFIDF.calcular_similaridade`: the synonym-expanded token set, each
with `tf_norm = count / len` (all counts are 1 since the source is a
set) times `idf.get(termo, 0)`. -/
noncomputable def tfidf_consulta (m : MotorTFIDF) (consulta : String) : List (String × ℝ) :=
  let tokens_consulta := tokenizar consulta true
  let tokens_expandidos := expandir_sinonimos tokens_consulta
  tokens_expandidos.dedup.map (fun t =>
    (t, ((tokens_expandidos.count t : ℝ) / (tokens_expandidos.length : ℝ)) * m.idf t))

/-- `MotorTFIDF.calcular_similaridade` (an out-of-range index would raise
in Python; the embedding reads `[]`, giving similarity `0`, and the
theorems about valid indices carry the range hypothesis). -/
noncomputable def calcular_similaridade (m : MotorTFIDF) (consulta : String)
    (idx_documento : ℕ) : ℝ :=
  let tfidfc := tfidf_consulta m consulta
  let doc_tfidf := (m.documentos_tfidf.get? idx_documento).getD []
  let dot_product := dotProduct tfidfc doc_tfidf
  let norm_consulta := Real.sqrt (sumSqVals tfidfc)
  let norm_doc := Real.sqrt (sumSqVals doc_tfidf)
  if norm_consulta = 0 ∨ norm_doc = 0 then 0
  else dot_product / (norm_consulta * norm_doc)

/-- `BaseConhecimentoSemantica`: `itens` is the CSV content (an external
input, so a parameter here); the index is built over
`f"{categoria} {pergunta} {resposta}"` at construction.  (For an empty
base the source skips `construir_indice`, leaving the freshly constructed
empty motor, which coincides with `construir_indice []`.) -/
structure BaseConhecimentoSemantica where
  itens : List ItemConhecimento
  motor_tfidf : MotorTFIDF

noncomputable def mkBase (itens : List ItemConhecimento) : BaseConhecimentoSemantica :=
  let documentos := itens.map (fun item =>
    item.categoria ++ " " ++ item.pergunta ++ " " ++ item.resposta)
  { itens := itens, motor_tfidf := construir_indice documentos }

/-- `BaseConhecimentoSemantica.buscar_exato`. -/
noncomputable def buscar_exato (base : BaseConhecimentoSemantica) (consulta : String) :
    List ResultadoBusca :=
  let tokens_consulta := (tokenizar consulta true).toFinset
  base.itens.filterMap (fun item =>
    let tokens_item := (tokenizar (item.pergunta ++ " " ++ item.resposta) true).toFinset
    let intersecao := tokens_consulta ∩ tokens_item
    if intersecao.Nonempty then
      let score : ℝ :=
        if tokens_consulta.Nonempty then
          (intersecao.card : ℝ) / (tokens_consulta.card : ℝ)
        else 0
      if 0.3 < score then
        some { item := item, score_similaridade := score, metodo_match := "exato" }
      else none
    else none)

/-- `BaseConhecimentoSemantica.buscar_tfidf` (stable descending sort on
the score, as Python's `sort(key=..., reverse=True)`). -/
noncomputable def buscar_tfidf (base : BaseConhecimentoSemantica) (consulta : String)
    (top_k : ℕ := 5) : List ResultadoBusca :=
  if base.itens = [] then []
  else
    let scores := (List.range base.itens.length).filterMap (fun idx =>
      let score := calcular_similaridade base.motor_tfidf consulta idx
      if 0.1 < score then some (idx, score) else none)
    let sorted := scores.mergeSort (fun a b => decide (b.2 ≤ a.2))
    (sorted.take top_k).map (fun p =>
      { item := base.itens.getD p.1 default
        score_similaridade := p.2
        metodo_match := "tfidf" })

/-- `BaseConhecimentoSemantica.buscar_por_categoria`. -/
noncomputable def buscar_por_categoria (base : BaseConhecimentoSemantica)
    (categoria : String) : List ResultadoBusca :=
  let categoria_norm := normalizar categoria
  base.itens.filterMap (fun item =>
    if normalizar item.categoria = categoria_norm then
      some { item := item, score_similaridade := 1.0, metodo_match := "categoria" }
    else none)

/-- In-place update of the entry of an insertion-ordered dictionary
(mutating a `ResultadoBusca` stored in `resultados_finais`). -/
def atualizar {β : Type} (l : List (String × β)) (k : String) (f : β → β) :
    List (String × β) :=
  match l with
  | [] => []
  | (k', v) :: rest => if k' = k then (k', f v) :: rest else (k', v) :: atualizar rest k f

/-- One iteration of `buscar`'s category loop: insert the ×1.2-boosted
category hit when its source key is new. -/
noncomputable def passo_categoria (acc : List (String × ResultadoBusca))
    (resultado : ResultadoBusca) : List (String × ResultadoBusca) :=
  if (acc.lookup resultado.item.fonte).isSome then acc
  else acc ++ [(resultado.item.fonte,
    { resultado with score_similaridade := resultado.score_similaridade * 1.2 })]

/-- One iteration of `buscar`'s TF-IDF loop: max-combine onto an
existing entry, else insert. -/
noncomputable def passo_tfidf (acc : List (String × ResultadoBusca))
    (resultado : ResultadoBusca) : List (String × ResultadoBusca) :=
  if (acc.lookup resultado.item.fonte).isSome then
    atualizar acc resultado.item.fonte (fun r =>
      { r with score_similaridade := max r.score_similaridade resultado.score_similaridade })
  else acc ++ [(resultado.item.fonte, resultado)]

/-- One iteration of `buscar`'s exact-match loop: add half the exact
score onto an existing entry, else insert. -/
noncomputable def passo_exato (acc : List (String × ResultadoBusca))
    (resultado : ResultadoBusca) : List (String × ResultadoBusca) :=
  if (acc.lookup resultado.item.fonte).isSome then
    atualizar acc resultado.item.fonte (fun r =>
      { r with score_similaridade :=
          r.score_similaridade + resultado.score_similaridade * 0.5 })
  else acc ++ [(resultado.item.fonte, resultado)]

/-- `BaseConhecimentoSemantica.buscar`: hybrid merge keyed on
`item.fonte` — category hits enter first boosted ×1.2, TF-IDF hits
max-combine or insert, exact hits add half their score or insert; the
merged values are sorted by score (stable, descending) and truncated. -/
noncomputable def buscar (base : BaseConhecimentoSemantica) (consulta : String)
    (contexto : Option Contexto := none) (top_k : ℕ := 5) : List ResultadoBusca :=
  let passo1 : List (String × ResultadoBusca) :=
    match contexto with
    | some ctx =>
      match ctx.categoria with
      | some cat =>
        if cat ≠ "" then (buscar_por_categoria base cat).foldl passo_categoria []
        else []
      | none => []
    | none => []
  let passo2 := (buscar_tfidf base consulta (top_k * 2)).foldl passo_tfidf passo1
  let passo3 := (buscar_exato base consulta).foldl passo_exato passo2
  ((passo3.map Prod.snd).mergeSort
    (fun a b => decide (b.score_similaridade ≤ a.score_similaridade))).take top_k

/-- Round half to even over `ℝ` (for Python's `{:.0%}` formatting). -/
noncomputable def roundHalfEvenR (x : ℝ) : ℤ :=
  let f := ⌊x⌋
  let r := x - (f : ℝ)
  if r < 1 / 2 then f
  else if 1 / 2 < r then f + 1
  else if f % 2 = 0 then f else f + 1

noncomputable def fmtPct (x : ℝ) : String := toString (roundHalfEvenR (x * 100)) ++ "%"

/-- `BaseConhecimentoSemantica.obter_contexto_relevante`. -/
noncomputable def obter_contexto_relevante (base : BaseConhecimentoSemantica)
    (consulta : String) (contexto : Option Contexto := none) : String :=
  let resultados := buscar base consulta contexto
  match resultados with
  | [] => "Nenhuma política específica encontrada na base de conhecimento."
  | _ =>
    let partes := ["POLÍTICAS RELEVANTES ENCONTRADAS:\n"] ++
      (resultados.enumFrom 1).map (fun p =>
        let item := p.2.item
        "\n--- Política " ++ toString p.1 ++ " (Relevância: " ++
        fmtPct p.2.score_similaridade ++ ") ---\nFonte: " ++ item.fonte ++
        "\nCategoria: " ++ item.categoria ++ "\nPergunta: " ++ item.pergunta ++
        "\nResposta: " ++ item.resposta ++ "\n")
    String.intercalate "\n" partes

end BuscaSemantica

/-! ## Python string helpers used by integracao_llm.py -/

/-- Python's `sub in s` (contiguous substring). -/
def pyIn (sub s : String) : Bool := decide (sub.toList <:+: s.toList)

/-- Python's `s.lower()` (see `pyLower`). -/
def pyLowerStr (s : String) : String := (s.toList.map pyLower).asString

/-- Python's `s.find(c)` — first index or `-1`. -/
def pyFind (s : String) (c : Char) : ℤ :=
  match s.toList.indexOf? c with
  | some i => (i : ℤ)
  | none => -1

/-- Python's `s.rfind(c)` — last index or `-1`. -/
def pyRfind (s : String) (c : Char) : ℤ :=
  match s.toList.reverse.indexOf? c with
  | some i => (s.length : ℤ) - 1 - (i : ℤ)
  | none => -1

/-- Python's `s[a:b]` for `0 ≤ a ≤ b` (character slicing). -/
def pySlice (s : String) (a b : ℕ) : String :=
  ((s.toList.drop a).take (b - a)).asString

/-! ## A model of `json.loads`

`_parsear_resposta` feeds the brace-delimited slice of the model answer
to `json.loads`.  The parser below covers JSON objects, arrays, strings
(with the single-character escapes; `\uXXXX` escapes are outside the
model), integers and decimal fractions (exponents are outside the
model), booleans and `null`; `none` corresponds to `json.JSONDecodeError`. -/

inductive JVal where
  | null
  | bool (b : Bool)
  | num (q : ℚ)
  | str (s : String)
  | arr (elems : List JVal)
  | obj (fields : List (String × JVal))

def jskip (cs : List Char) : List Char :=
  cs.dropWhile (fun c => c = ' ' || c = '\t' || c = '\n' || c = '\r')

def jstringAux (acc : List Char) (cs : List Char) : Option (String × List Char) :=
  match cs with
  | [] => none
  | '"' :: rest => some (acc.reverse.asString, rest)
  | '\\' :: e :: rest =>
    match e with
    | '"' => jstringAux ('"' :: acc) rest
    | '\\' => jstringAux ('\\' :: acc) rest
    | '/' => jstringAux ('/' :: acc) rest
    | 'n' => jstringAux ('\n' :: acc) rest
    | 't' => jstringAux ('\t' :: acc) rest
    | 'r' => jstringAux ('\r' :: acc) rest
    | 'b' => jstringAux ('\x08' :: acc) rest
    | 'f' => jstringAux ('\x0c' :: acc) rest
    | _ => none
  | c :: rest => jstringAux (c :: acc) rest
termination_by cs.length

def jnumber (cs : List Char) : Option (ℚ × List Char) :=
  let (neg, cs1) := match cs with
    | '-' :: r => (true, r)
    | _ => (false, cs)
  let d1 := cs1.takeWhile Char.isDigit
  if d1 = [] then none
  else
    let cs2 := cs1.drop d1.length
    let (q, rest) : ℚ × List Char :=
      match cs2 with
      | '.' :: r =>
        let d2 := r.takeWhile Char.isDigit
        ((digitsToNat d1 : ℚ) + (digitsToNat d2 : ℚ) / 10 ^ d2.length, r.drop d2.length)
      | _ => ((digitsToNat d1 : ℚ), cs2)
    some (if neg then -q else q, rest)

mutual

def jvalue : ℕ → List Char → Option (JVal × List Char)
  | 0, _ => none
  | n + 1, cs =>
    match jskip cs with
    | '"' :: rest => (jstringAux [] rest).map (fun p => (JVal.str p.1, p.2))
    | '{' :: rest =>
      (match jskip rest with
       | '}' :: rest2 => some (JVal.obj [], rest2)
       | rest2 => (jmembers n rest2).map (fun p => (JVal.obj p.1, p.2)))
    | '[' :: rest =>
      (match jskip rest with
       | ']' :: rest2 => some (JVal.arr [], rest2)
       | rest2 => (jitems n rest2).map (fun p => (JVal.arr p.1, p.2)))
    | 't' :: 'r' :: 'u' :: 'e' :: rest => some (JVal.bool true, rest)
    | 'f' :: 'a' :: 'l' :: 's' :: 'e' :: rest => some (JVal.bool false, rest)
    | 'n' :: 'u' :: 'l' :: 'l' :: rest => some (JVal.null, rest)
    | other => (jnumber other).map (fun p => (JVal.num p.1, p.2))

def jmembers : ℕ → List Char → Option (List (String × JVal) × List Char)
  | 0, _ => none
  | n + 1, cs =>
    match jskip cs with
    | '"' :: rest =>
      match jstringAux [] rest with
      | none => none
      | some (key, rest1) =>
        match jskip rest1 with
        | ':' :: rest2 =>
          match jvalue n rest2 with
          | none => none
          | some (v, rest3) =>
            match jskip rest3 with
            | ',' :: rest4 =>
              (jmembers n rest4).map (fun p => ((key, v) :: p.1, p.2))
            | '}' :: rest4 => some ([(key, v)], rest4)
            | _ => none
        | _ => none
    | _ => none

def jitems : ℕ → List Char → Option (List JVal × List Char)
  | 0, _ => none
  | n + 1, cs =>
    match jvalue n cs with
    | none => none
    | some (v, rest) =>
      match jskip rest with
      | ',' :: rest2 => (jitems n rest2).map (fun p => (v :: p.1, p.2))
      | ']' :: rest2 => some ([v], rest2)
      | _ => none

end

def json_loads (s : String) : Option JVal :=
  match jvalue (s.length + 1) s.toList with
  | some (v, rest) => if jskip rest = [] then some v else none
  | none => none

/-! ## integracao_llm.py -/

inductive ProvedorLLM where
  | OPENAI | GEMINI | LOCAL
deriving DecidableEq, Repr

structure RespostaLLM where
  texto : String
  decisao_sugerida : String
  confianca : ℚ
  justificativa : String
  tokens_usados : ℕ := 0
  modelo : String := ""
  sucesso : Bool := true
  erro : String := ""
deriving DecidableEq, Repr

/-- The `contexto_llm` dictionary handed to a provider: the shallow copy
of the claim context plus the `politicas_relevantes` key added by the
orchestrator. -/
structure ContextoLLM where
  contexto : Contexto
  politicas_relevantes : Option String := none

/-- How `_parsear_resposta`'s `try` block can go wrong: `caught` stands
for `json.JSONDecodeError`/`ValueError` (absorbed by its `except`,
falling back to the keyword heuristic) and also for the skipped parse
when no brace-delimited slice exists; `uncaught` stands for exceptions
outside that `except` clause (`TypeError` from `float(...)` on a
non-convertible value, `AttributeError` from `.get` on a non-object),
which escape to `analisar`'s outer handler. -/
inductive ParseFalha where
  | caught
  | uncaught (msg : String)
deriving DecidableEq, Repr

/-- Python `float(x)` on a decoded JSON value. -/
def float_of_jval : JVal → Except ParseFalha ℚ
  | .num q => .ok q
  | .bool b => .ok (if b then 1 else 0)
  | .str s =>
    match pyFloat s with
    | some q => .ok q
    | none => .error .caught
  | .null => .error (.uncaught "TypeError: float() argument is None")
  | .arr _ => .error (.uncaught "TypeError: float() argument is a list")
  | .obj _ => .error (.uncaught "TypeError: float() argument is a dict")

/-- Rendering of an ill-typed (non-string) JSON field stored into a
string-typed slot of the dataclass; no claim depends on this corner, and
well-typed model answers never reach it. -/
def jval_como_str : JVal → String
  | .str s => s
  | .null => "None"
  | .bool b => if b then "True" else "False"
  | .num q => toString q
  | .arr _ => "[...]"
  | .obj _ => "{...}"

/-- The structured (JSON) branch of `_parsear_resposta`, shared verbatim
by `ClienteOpenAI` and `ClienteGemini` in the source. -/
def parsear_estruturado (texto : String) : Except ParseFalha RespostaLLM := do
  let inicio := pyFind texto '{'
  let fim := pyRfind texto '}' + 1
  if inicio ≠ -1 ∧ inicio < fim then
    let json_str := pySlice texto inicio.toNat fim.toNat
    match json_loads json_str with
    | some (.obj dados) =>
      let confianca ← float_of_jval ((dados.lookup "confianca").getD (.num (1 / 2)))
      pure { texto := texto
             decisao_sugerida := jval_como_str ((dados.lookup "decisao").getD (.str "ESCALAR"))
             confianca := confianca
             justificativa := jval_como_str ((dados.lookup "justificativa").getD (.str "Sem justificativa"))
             sucesso := true }
    | some _ => .error (.uncaught "AttributeError: no attribute get")
    | none => .error .caught
  else
    .error .caught

/-- The keyword fallback of `ClienteOpenAI._parsear_resposta`. -/
def parsear_fallback_openai (texto : String) : RespostaLLM :=
  let lower := pyLowerStr texto
  let decisao :=
    if pyIn "aprovar" lower || pyIn "reembolso" lower then "APROVAR"
    else if pyIn "rejeitar" lower || pyIn "não elegível" lower then "REJEITAR"
    else "ESCALAR"
  { texto := texto, decisao_sugerida := decisao, confianca := 0.5,
    justificativa := (texto.toList.take 200).asString, sucesso := true }

/-- The keyword fallback of `ClienteGemini._parsear_resposta`. -/
def parsear_fallback_gemini (texto : String) : RespostaLLM :=
  let lower := pyLowerStr texto
  let decisao :=
    if pyIn "aprovar" lower then "APROVAR"
    else if pyIn "rejeitar" lower then "REJEITAR"
    else "ESCALAR"
  { texto := texto, decisao_sugerida := decisao, confianca := 0.5,
    justificativa := (texto.toList.take 200).asString, sucesso := true }

def parsear_resposta_openai (texto : String) : Except String RespostaLLM :=
  match parsear_estruturado texto with
  | .ok r => .ok r
  | .error .caught => .ok (parsear_fallback_openai texto)
  | .error (.uncaught msg) => .error msg

def parsear_resposta_gemini (texto : String) : Except String RespostaLLM :=
  match parsear_estruturado texto with
  | .ok r => .ok r
  | .error .caught => .ok (parsear_fallback_gemini texto)
  | .error (.uncaught msg) => .error msg

/-- `ClienteOpenAI`: `avail` is `self._cliente is not None` (an API key
was present and the client library loaded); `api` is the outcome of the
external `chat.completions.create` call — the answer text and token
count, or the message of the raised exception.  The prompt strings are
consumed only by that external call, so they do not appear in the model
of its outcome. -/
structure ClienteOpenAI where
  avail : Bool
  api : Except String (String × ℕ)
  modelo : String := "gpt-3.5-turbo"

def ClienteOpenAI.esta_disponivel (c : ClienteOpenAI) : Bool := c.avail

/-- The `try` block of `ClienteOpenAI.analisar`. -/
def ClienteOpenAI.analisar_corpo (c : ClienteOpenAI) : Except String RespostaLLM := do
  let (resposta_texto, tokens_usados) ← c.api
  let resultado ← parsear_resposta_openai resposta_texto
  pure { resultado with tokens_usados := tokens_usados, modelo := c.modelo }

/-- `ClienteOpenAI.analisar`: unavailable-client and caught-exception
branches included. -/
def ClienteOpenAI.analisar (c : ClienteOpenAI) (_prompt : String)
    (_contexto : ContextoLLM) : RespostaLLM :=
  if !c.esta_disponivel then
    { texto := "", decisao_sugerida := "ESCALAR", confianca := 0.0,
      justificativa := "API OpenAI não disponível", sucesso := false,
      erro := "Cliente não inicializado" }
  else
    match c.analisar_corpo with
    | .ok resultado => resultado
    | .error e =>
      { texto := "", decisao_sugerida := "ESCALAR", confianca := 0.0,
        justificativa := s!"Erro na API: {e}", sucesso := false, erro := e }

/-- `ClienteGemini` (`generate_content` returns only text). -/
structure ClienteGemini where
  avail : Bool
  api : Except String String
  modelo : String := "gemini-pro"

def ClienteGemini.esta_disponivel (c : ClienteGemini) : Bool := c.avail

def ClienteGemini.analisar_corpo (c : ClienteGemini) : Except String RespostaLLM := do
  let resposta_texto ← c.api
  let resultado ← parsear_resposta_gemini resposta_texto
  pure { resultado with modelo := c.modelo }

def ClienteGemini.analisar (c : ClienteGemini) (_prompt : String)
    (_contexto : ContextoLLM) : RespostaLLM :=
  if !c.esta_disponivel then
    { texto := "", decisao_sugerida := "ESCALAR", confianca := 0.0,
      justificativa := "API Gemini não disponível", sucesso := false,
      erro := "Cliente não inicializado" }
  else
    match c.analisar_corpo with
    | .ok resultado => resultado
    | .error e =>
      { texto := "", decisao_sugerida := "ESCALAR", confianca := 0.0,
        justificativa := s!"Erro na API: {e}", sucesso := false, erro := e }

/-! ### AnalisadorLocalAvancado -/

def palavras_positivas : List String :=
  ["erro", "errado", "incorreto", "problema", "falha", "defeito",
   "cancelou", "cancelado", "não chegou", "não recebi", "faltando",
   "duplicado", "duplicada", "fraude", "invadido", "hackeado",
   "cobrança indevida", "cobrado errado", "atrasado", "demora"]

def palavras_negativas : List String :=
  ["mudei de ideia", "desisti", "não quero mais", "arrependimento",
   "já comi", "já recebi", "entreguei errado o endereço"]

def analisador_local_esta_disponivel : Bool := true

/-- `AnalisadorLocalAvancado.analisar` (pure keyword/context heuristics;
the zero denominator is guarded by `max(1, ...)`). -/
def analisador_local_analisar (prompt : String) (contexto : ContextoLLM) : RespostaLLM :=
  let texto_lower := pyLowerStr prompt
  let score_positivo : ℕ := (palavras_positivas.filter (fun p => pyIn p texto_lower)).length
  let score_negativo : ℕ := (palavras_negativas.filter (fun p => pyIn p texto_lower)).length
  let status := contexto.contexto.status.getD ""
  let motivo := contexto.contexto.motivo.getD ""
  let categoria := contexto.contexto.categoria.getD ""
  if categoria = "fraude" then
    { texto := "Análise local: Caso de fraude identificado",
      decisao_sugerida := "ESCALAR", confianca := 0.9,
      justificativa := "Casos de fraude requerem análise manual especializada.",
      modelo := "local_avancado", sucesso := true }
  else if motivo ∈ ["ERRO_RESTAURANTE", "ERRO_APP", "CANCELAMENTO_RESTAURANTE"] then
    { texto := "Análise local: Erro operacional identificado",
      decisao_sugerida := "APROVAR", confianca := 0.85,
      justificativa := s!"Erro operacional ({motivo}) detectado. Elegível para reembolso.",
      modelo := "local_avancado", sucesso := true }
  else if motivo = "ARREPENDIMENTO_CLIENTE" ∧ status ∈ ["SAIU_PARA_ENTREGA", "ENTREGUE"] then
    { texto := "Análise local: Arrependimento após entrega",
      decisao_sugerida := "REJEITAR", confianca := 0.9,
      justificativa := "Arrependimento após saída para entrega não é elegível.",
      modelo := "local_avancado", sucesso := true }
  else
    let score_final : ℚ :=
      ((score_positivo : ℚ) - (score_negativo : ℚ)) / (max 1 (score_positivo + score_negativo) : ℕ)
    let texto := s!"Análise local concluída. Indicadores positivos: {score_positivo}, negativos: {score_negativo}"
    if 0.3 < score_final then
      { texto := texto, decisao_sugerida := "APROVAR",
        confianca := min (0.6 + score_final * 0.2) 0.85,
        justificativa := s!"Análise indica elegibilidade. Score: {fmt2 score_final}",
        modelo := "local_avancado", sucesso := true }
    else if score_final < -0.3 then
      { texto := texto, decisao_sugerida := "REJEITAR",
        confianca := min (0.6 + |score_final| * 0.2) 0.85,
        justificativa := s!"Análise indica não elegibilidade. Score: {fmt2 score_final}",
        modelo := "local_avancado", sucesso := true }
    else
      { texto := texto, decisao_sugerida := "ESCALAR",
        confianca := min 0.5 0.85,
        justificativa := "Caso requer análise humana para decisão.",
        modelo := "local_avancado", sucesso := true }

/-! ### GerenciadorLLM -/

/-- `GerenciadorLLM` after `_inicializar_provedores`: a remote provider
is registered in `self.provedores` exactly when its availability check
passed at startup; the local analyzer is always registered. -/
structure GerenciadorLLM where
  openai : ClienteOpenAI
  gemini : ClienteGemini

/-- Membership in the `provedores` dictionary. -/
def GerenciadorLLM.tem_provedor (g : GerenciadorLLM) : ProvedorLLM → Bool
  | .OPENAI => g.openai.esta_disponivel
  | .GEMINI => g.gemini.esta_disponivel
  | .LOCAL => true

/-- The `esta_disponivel` re-check performed during provider selection. -/
def GerenciadorLLM.provedor_esta_disponivel (g : GerenciadorLLM) : ProvedorLLM → Bool
  | .OPENAI => g.openai.esta_disponivel
  | .GEMINI => g.gemini.esta_disponivel
  | .LOCAL => analisador_local_esta_disponivel

def ordem_preferencia : List ProvedorLLM := [.OPENAI, .GEMINI, .LOCAL]

/-- `GerenciadorLLM.obter_provedor_ativo`: scan the preference order;
the trailing line `return self.provedores.get(ProvedorLLM.LOCAL)` is the
fallthrough. -/
def GerenciadorLLM.obter_provedor_ativo (g : GerenciadorLLM) : Option ProvedorLLM :=
  match ordem_preferencia.find? (fun p => g.tem_provedor p && g.provedor_esta_disponivel p) with
  | some p => some p
  | none => if g.tem_provedor .LOCAL then some .LOCAL else none

/-- Dispatch `cliente.analisar(prompt, contexto)`. -/
def GerenciadorLLM.analisar_com (g : GerenciadorLLM) (p : ProvedorLLM)
    (prompt : String) (contexto : ContextoLLM) : RespostaLLM :=
  match p with
  | .OPENAI => g.openai.analisar prompt contexto
  | .GEMINI => g.gemini.analisar prompt contexto
  | .LOCAL => analisador_local_analisar prompt contexto

/-- `GerenciadorLLM.analisar`. -/
def GerenciadorLLM.analisar (g : GerenciadorLLM) (prompt : String) (contexto : ContextoLLM)
    (provedor : Option ProvedorLLM := none) : RespostaLLM :=
  let cliente : Option ProvedorLLM :=
    match provedor with
    | some p => if g.tem_provedor p then some p else g.obter_provedor_ativo
    | none => g.obter_provedor_ativo
  match cliente with
  | none =>
    { texto := "", decisao_sugerida := "ESCALAR", confianca := 0.0,
      justificativa := "Nenhum provedor de análise disponível", sucesso := false,
      erro := "Sem provedores" }
  | some p => g.analisar_com p prompt contexto

/-- `GerenciadorLLM.listar_provedores_disponiveis` (dictionary iteration
order is insertion order: openai, gemini, local). -/
def GerenciadorLLM.listar_provedores_disponiveis (g : GerenciadorLLM) : List String :=
  (if g.openai.esta_disponivel then ["openai"] else []) ++
  (if g.gemini.esta_disponivel then ["gemini"] else []) ++
  ["local"]

/-! ## tratamento_erros.py -/

/-- The `tratar_excecoes(valor_padrao=..., propagar=False)` decorator:
run the wrapped body; if it raises any `Exception`, log and return
`valor_padrao`.  `main_v2` applies it with `valor_padrao=None`, so the
wrapped entry point returns an `Option`. -/
def tratar_excecoes {α β : Type} (valor_padrao : Option β) (func : α → Except String β)
    (x : α) : Option β :=
  match func x with
  | .ok r => some r
  | .error _ => valor_padrao

/-- The dictionary shape built by `RecuperadorFalhas.criar_resposta_erro`. -/
structure RespostaErroDict where
  resposta_final : String
  confianca : String
  acao : String
  fontes : List String
  erro : Bool
  metodo_decisao : String
deriving DecidableEq, Repr

/-- `RecuperadorFalhas.criar_resposta_erro`: the degraded
`ESCALAR`/`Baixa`/`erro_fallback` response.  Defined in
`tratamento_erros.py` but never invoked by any caller in the repository
(in particular not by the `processar_solicitacao` wrapper, whose
`valor_padrao` is `None`). -/
def criar_resposta_erro (mensagem : String) : RespostaErroDict :=
  { resposta_final := mensagem, confianca := "Baixa", acao := "ESCALAR",
    fontes := [], erro := true, metodo_decisao := "erro_fallback" }

/-! ## main_v2.py -/

def DecisaoTipo.valor : DecisaoTipo → String
  | .APROVAR => "APROVAR"
  | .REJEITAR => "REJEITAR"
  | .ESCALAR => "ESCALAR"
  | .ANALISE_MANUAL => "ANALISE_MANUAL"

def ConfiancaNivel.valor : ConfiancaNivel → String
  | .ALTA => "Alta"
  | .MEDIA => "Média"
  | .BAIXA => "Baixa"

/-- Python's `f"{q:.0%}"` on a rational. -/
def fmtPctQ (q : ℚ) : String := toString (roundHalfEven (q * 100)) ++ "%"

/-- `main_v2.RespostaAgente`.  `tempo_processamento_ms` is wall-clock
time, outside the model; it is left at its dataclass default `0`. -/
structure RespostaAgente where
  resposta_final : String
  confianca : String
  acao : String
  fontes : List String := []
  codigo_politica : String := ""
  score : ℚ := 0
  detalhes_score : ScoresParciais := ⟨0, 0, 0, 0, 0⟩
  tempo_processamento_ms : ℚ := 0
  metodo_decisao : String := ""
deriving DecidableEq, Repr

/-- `AgenteReembolsoV2._criar_resposta_politica`. -/
def criar_resposta_politica (politica : ResultadoPolitica) (fontes : List String)
    (score : ResultadoScore) : RespostaAgente :=
  { resposta_final := politica.justificativa
    confianca := politica.confianca.valor
    acao := politica.decisao.valor
    fontes := fontes
    codigo_politica := politica.codigo_politica
    score := score.score_final
    detalhes_score := score.scores_parciais
    metodo_decisao := "politica" }

/-- `AgenteReembolsoV2._criar_resposta_llm`. -/
def criar_resposta_llm (resposta_llm : RespostaLLM) (fontes : List String)
    (score : ResultadoScore) (politica : Option ResultadoPolitica) : RespostaAgente :=
  let confianca :=
    if 0.8 ≤ resposta_llm.confianca then "Alta"
    else if 0.5 ≤ resposta_llm.confianca then "Média"
    else "Baixa"
  let codigo :=
    match politica with
    | some p => p.codigo_politica
    | none => "LLM_ANALYSIS"
  { resposta_final := resposta_llm.justificativa
    confianca := confianca
    acao := resposta_llm.decisao_sugerida
    fontes := fontes
    codigo_politica := codigo
    score := score.score_final
    detalhes_score := score.scores_parciais
    metodo_decisao := "llm_" ++ resposta_llm.modelo }

/-- `AgenteReembolsoV2._criar_resposta_combinada`. -/
def criar_resposta_combinada (politica : ResultadoPolitica) (fontes : List String)
    (score : ResultadoScore) : RespostaAgente :=
  let par : String × String :=
    if 0.7 ≤ score.score_final ∧ politica.decisao ∈ [DecisaoTipo.APROVAR, DecisaoTipo.ESCALAR] then
      ("APROVAR", politica.justificativa ++ " Score de elegibilidade: " ++ fmtPctQ score.score_final)
    else if score.score_final < 0.4 then
      ("REJEITAR", "Elegibilidade baixa (" ++ fmtPctQ score.score_final ++ "). " ++ politica.justificativa)
    else
      ("ESCALAR", "Caso requer análise adicional. " ++ politica.justificativa)
  { resposta_final := par.2
    confianca := politica.confianca.valor
    acao := par.1
    fontes := fontes
    codigo_politica := politica.codigo_politica
    score := score.score_final
    detalhes_score := score.scores_parciais
    metodo_decisao := "combinado" }

/-- `AgenteReembolsoV2` after `__init__`: the knowledge base (from the
CSV file, an external input) and the provider manager (whose remote
availability is environment-determined).  Logging is an external sink. -/
structure AgenteReembolsoV2 where
  base_conhecimento : BaseConhecimentoSemantica
  gerenciador_llm : GerenciadorLLM

/-- The body of `AgenteReembolsoV2.processar_solicitacao` (the code
inside the `tratar_excecoes` wrapper): retrieval, rules, scoring,
decision.  Print/log statements are external effects; wall-clock
stamping is outside the model. -/
noncomputable def processar_solicitacao_corpo (agente : AgenteReembolsoV2)
    (consulta_usuario : String) (contexto : Contexto) : Except String RespostaAgente := do
  let resultados_busca := buscar agente.base_conhecimento consulta_usuario (some contexto) 5
  let fontes_consultadas := (resultados_busca.map (fun r => r.item.fonte)).dedup
  let resultado_politica ← avaliar contexto
  let resultado_score ← calcular_score contexto resultado_politica
  match resultado_politica with
  | some politica =>
    if politica.confianca = .ALTA then
      pure (criar_resposta_politica politica fontes_consultadas resultado_score)
    else if politica.confianca = .BAIXA then
      let contexto_llm : ContextoLLM :=
        { contexto := contexto
          politicas_relevantes :=
            some (obter_contexto_relevante agente.base_conhecimento consulta_usuario (some contexto)) }
      let resposta_llm := agente.gerenciador_llm.analisar consulta_usuario contexto_llm none
      pure (criar_resposta_llm resposta_llm fontes_consultadas resultado_score resultado_politica)
    else
      pure (criar_resposta_combinada politica fontes_consultadas resultado_score)
  | none =>
    let contexto_llm : ContextoLLM :=
      { contexto := contexto
        politicas_relevantes :=
          some (obter_contexto_relevante agente.base_conhecimento consulta_usuario (some contexto)) }
    let resposta_llm := agente.gerenciador_llm.analisar consulta_usuario contexto_llm none
    pure (criar_resposta_llm resposta_llm fontes_consultadas resultado_score resultado_politica)

/-- `AgenteReembolsoV2.processar_solicitacao` as seen by callers: the
body wrapped by `@tratar_excecoes(valor_padrao=None, log_erro=True)`. -/
noncomputable def processar_solicitacao (agente : AgenteReembolsoV2)
    (consulta_usuario : String) (contexto : Contexto) : Option RespostaAgente :=
  tratar_excecoes none
    (fun p : String × Contexto => processar_solicitacao_corpo agente p.1 p.2)
    (consulta_usuario, contexto)

/-! ## State-threaded replay (for the frame property)

The source never assigns into the caller's context dictionary, the
knowledge-base items, or the TF-IDF index: searches allocate fresh
`ResultadoBusca` wrappers, rule evaluation only reads the context, and
the prompt enrichment writes the `politicas_relevantes` key into the
shallow copy `contexto_llm = contexto.copy()`, not into the original.
The definitions below replay the pipeline threading those objects
through each embedded statement, so that this read-only discipline is a
provable equation rather than a typing convention. -/

def avaliarAux_st (rs : List (Contexto → Except String (Option ResultadoPolitica)))
    (contexto : Contexto) : Except String (Option ResultadoPolitica) × Contexto :=
  match rs with
  | [] => (.ok none, contexto)
  | regra :: resto =>
    match regra contexto with
    | .ok (some resultado) => (.ok (some resultado), contexto)
    | .ok none => avaliarAux_st resto contexto
    | .error e => (.error e, contexto)

def avaliar_st (contexto : Contexto) : Except String (Option ResultadoPolitica) × Contexto :=
  avaliarAux_st regras contexto

/-- `buscar` reads the base and allocates fresh result objects; there is
no assignment into `self.itens` or `self.motor_tfidf` after
construction, so the state component is the input base. -/
noncomputable def buscar_st (base : BaseConhecimentoSemantica) (consulta : String)
    (contexto : Option Contexto) (top_k : ℕ) :
    List ResultadoBusca × BaseConhecimentoSemantica :=
  (buscar base consulta contexto top_k, base)

/-- `calcular_score` reads the context through `.get` lookups only. -/
def calcular_score_st (contexto : Contexto) (resultado_politica : Option ResultadoPolitica) :
    Except String ResultadoScore × Contexto :=
  (calcular_score contexto resultado_politica, contexto)

/-- The pipeline body, threading the caller's context and the knowledge
base through every stage. -/
noncomputable def processar_solicitacao_corpo_st (agente : AgenteReembolsoV2)
    (consulta_usuario : String) (contexto : Contexto) :
    Except String RespostaAgente × Contexto × BaseConhecimentoSemantica :=
  let passo1 := buscar_st agente.base_conhecimento consulta_usuario (some contexto) 5
  let resultados_busca := passo1.1
  let base1 := passo1.2
  let fontes_consultadas := (resultados_busca.map (fun r => r.item.fonte)).dedup
  let passo2 := avaliar_st contexto
  match passo2 with
  | (.error e, ctx2) => (.error e, ctx2, base1)
  | (.ok resultado_politica, ctx2) =>
    match calcular_score_st ctx2 resultado_politica with
    | (.error e, ctx3) => (.error e, ctx3, base1)
    | (.ok resultado_score, ctx3) =>
      let decide_llm : Bool :=
        match resultado_politica with
        | some politica => politica.confianca = .BAIXA
        | none => true
      match resultado_politica with
      | some politica =>
        if politica.confianca = .ALTA then
          (.ok (criar_resposta_politica politica fontes_consultadas resultado_score), ctx3, base1)
        else if decide_llm then
          let contexto_llm : ContextoLLM :=
            { contexto := ctx3
              politicas_relevantes :=
                some (obter_contexto_relevante base1 consulta_usuario (some ctx3)) }
          let resposta_llm := agente.gerenciador_llm.analisar consulta_usuario contexto_llm none
          (.ok (criar_resposta_llm resposta_llm fontes_consultadas resultado_score resultado_politica),
           ctx3, base1)
        else
          (.ok (criar_resposta_combinada politica fontes_consultadas resultado_score), ctx3, base1)
      | none =>
        let contexto_llm : ContextoLLM :=
          { contexto := ctx3
            politicas_relevantes :=
              some (obter_contexto_relevante base1 consulta_usuario (some ctx3)) }
        let resposta_llm := agente.gerenciador_llm.analisar consulta_usuario contexto_llm none
        (.ok (criar_resposta_llm resposta_llm fontes_consultadas resultado_score resultado_politica),
         ctx3, base1)

/-- The wrapped entry point, threading the caller-visible state. -/
noncomputable def processar_solicitacao_st (agente : AgenteReembolsoV2)
    (consulta_usuario : String) (contexto : Contexto) :
    Option RespostaAgente × Contexto × BaseConhecimentoSemantica :=
  match processar_solicitacao_corpo_st agente consulta_usuario contexto with
  | (.ok r, ctx', base') => (some r, ctx', base')
  | (.error _, ctx', base') => (none, ctx', base')

/-! # Theorems -/

/-- Unfolding step for the rule chain. -/
theorem avaliarAux_cons (r : Contexto → Except String (Option ResultadoPolitica))
    (rs : List (Contexto → Except String (Option ResultadoPolitica))) (ctx : Contexto) :
    avaliarAux (r :: rs) ctx =
      match r ctx with
      | .ok (some resultado) => .ok (some resultado)
      | .ok none => avaliarAux rs ctx
      | .error e => .error e := by
  cases h : r ctx with
  | ok v =>
    cases v with
    | some resultado => simp [avaliarAux, h, Bind.bind, Except.bind, Pure.pure, Except.pure]
    | none => simp [avaliarAux, h, Bind.bind, Except.bind, Pure.pure, Except.pure]
  | error e => simp [avaliarAux, h, Bind.bind, Except.bind, Pure.pure, Except.pure]

/-- C4.  For every claim context with reason `ARREPENDIMENTO_CLIENTE`,
the rule engine's `avaliar` returns decision `REJEITAR` when the status
is `SAIU_PARA_ENTREGA` or `ENTREGUE` (rule R2), and `APROVAR` when the
status is `AGUARDANDO_CONFIRMACAO` (rule C3, which fires first) or
`EM_PREPARACAO` (rule R1) — whatever the remaining context fields are. -/
theorem arrependimento_particao_por_status (ctx : Contexto)
    (hm : ctx.motivo = some "ARREPENDIMENTO_CLIENTE") :
    ((ctx.status = some "SAIU_PARA_ENTREGA" ∨ ctx.status = some "ENTREGUE") →
      ∃ r, avaliar ctx = .ok (some r) ∧ r.decisao = .REJEITAR) ∧
    ((ctx.status = some "AGUARDANDO_CONFIRMACAO" ∨ ctx.status = some "EM_PREPARACAO") →
      ∃ r, avaliar ctx = .ok (some r) ∧ r.decisao = .APROVAR) := by
  constructor
  · intro hs
    have h : avaliar ctx = .ok (some
        { decisao := .REJEITAR, confianca := .ALTA, codigo_politica := "ARREPENDIMENTO_R2",
          justificativa := "Desistência após saída para entrega não é elegível para reembolso conforme Política 4.1.",
          pontuacao := 0.95,
          fatores := [("motivo", .s "arrependimento"), ("fase", .s "pos_saida"),
            ("elegivel", .b false)] }) := by
      rcases hs with hs | hs <;>
        simp [avaliar, regras, avaliarAux_cons, avaliarAux, regra_fraude_detectada,
          regra_conta_comprometida, regra_cancelamento_restaurante, regra_erro_app_comprovado,
          regra_pedido_nao_confirmado, regra_erro_restaurante, regra_erro_entregador,
          regra_pedido_nao_recebido, regra_pedido_incompleto, regra_cobranca_duplicada,
          regra_cobranca_pos_cancelamento, regra_atraso_excessivo,
          regra_arrependimento_antes_preparo, regra_arrependimento_apos_saida, hm, hs,
          Bind.bind, Except.bind, Pure.pure, Except.pure]
    exact ⟨_, h, rfl⟩
  · intro hs
    rcases hs with hs | hs
    · have h : avaliar ctx = .ok (some
          { decisao := .APROVAR, confianca := .ALTA, codigo_politica := "CANCELAMENTO_C3",
            justificativa := "Pedido ainda não confirmado pelo restaurante. Cancelamento permitido com reembolso total.",
            pontuacao := 1.0,
            fatores := [("status", .s "pre_confirmacao"), ("reembolso", .s "total")] }) := by
        simp [avaliar, regras, avaliarAux_cons, avaliarAux, regra_fraude_detectada,
          regra_conta_comprometida, regra_cancelamento_restaurante, regra_erro_app_comprovado,
          regra_pedido_nao_confirmado, regra_erro_restaurante, regra_erro_entregador,
          regra_pedido_nao_recebido, regra_pedido_incompleto, regra_cobranca_duplicada,
          regra_cobranca_pos_cancelamento, regra_atraso_excessivo,
          regra_arrependimento_antes_preparo, regra_arrependimento_apos_saida, hm, hs,
          Bind.bind, Except.bind, Pure.pure, Except.pure]
      exact ⟨_, h, rfl⟩
    · have h : avaliar ctx = .ok (some
          { decisao := .APROVAR, confianca := .ALTA, codigo_politica := "ARREPENDIMENTO_R1",
            justificativa := "Cancelamento por arrependimento antes da saída para entrega. Reembolso aprovado.",
            pontuacao := 0.90,
            fatores := [("motivo", .s "arrependimento"), ("fase", .s "pre_entrega")] }) := by
        simp [avaliar, regras, avaliarAux_cons, avaliarAux, regra_fraude_detectada,
          regra_conta_comprometida, regra_cancelamento_restaurante, regra_erro_app_comprovado,
          regra_pedido_nao_confirmado, regra_erro_restaurante, regra_erro_entregador,
          regra_pedido_nao_recebido, regra_pedido_incompleto, regra_cobranca_duplicada,
          regra_cobranca_pos_cancelamento, regra_atraso_excessivo,
          regra_arrependimento_antes_preparo, regra_arrependimento_apos_saida, hm, hs,
          Bind.bind, Except.bind, Pure.pure, Except.pure]
      exact ⟨_, h, rfl⟩

/-- C4 witness: the two partition halves at concrete contexts. -/
theorem arrependimento_particao_por_status_witness :
    (∃ r, avaliar { categoria := some "reembolso", motivo := some "ARREPENDIMENTO_CLIENTE",
                    status := some "SAIU_PARA_ENTREGA" } = .ok (some r) ∧ r.decisao = .REJEITAR) ∧
    (∃ r, avaliar { categoria := some "reembolso", motivo := some "ARREPENDIMENTO_CLIENTE",
                    status := some "EM_PREPARACAO" } = .ok (some r) ∧ r.decisao = .APROVAR) :=
  ⟨(arrependimento_particao_por_status _ rfl).1 (Or.inl rfl),
   (arrependimento_particao_por_status _ rfl).2 (Or.inr rfl)⟩

/-- C5.  For reason `ATRASO_ENTREGA` the engine partitions on the parsed
wait: at least 60 minutes gives `APROVAR`/`ALTA` with the critical
marker in the policy code; at least 30 but under 60 gives
`APROVAR`/`MEDIA`; anything smaller (including a zero, which Python's
truthiness treats like an absent value) or unparsable gives
`ESCALAR`/`BAIXA`.  (The spec states the marker in English,
`"CRITICAL"`, rendering the source's `"CRITICO"`.) -/
theorem atraso_particao_por_tempo (ctx : Contexto) (t : Option ℤ)
    (hm : ctx.motivo = some "ATRASO_ENTREGA")
    (ht : extrair_tempo_espera ctx = .ok t) :
    (∀ n : ℤ, t = some n → n ≠ 0 → 60 ≤ n →
      ∃ r, avaliar ctx = .ok (some r) ∧ r.decisao = .APROVAR ∧ r.confianca = .ALTA ∧
        pyIn "CRITICO" r.codigo_politica = true) ∧
    (∀ n : ℤ, t = some n → n ≠ 0 → 30 ≤ n → n < 60 →
      ∃ r, avaliar ctx = .ok (some r) ∧ r.decisao = .APROVAR ∧ r.confianca = .MEDIA) ∧
    ((t = Option.none ∨ ∃ n : ℤ, t = some n ∧ (n = 0 ∨ n < 30)) →
      ∃ r, avaliar ctx = .ok (some r) ∧ r.decisao = .ESCALAR ∧ r.confianca = .BAIXA) := by
  have chain : avaliar ctx = regra_atraso_excessivo ctx := by
    simp [avaliar, regras, avaliarAux_cons, avaliarAux, regra_fraude_detectada,
      regra_conta_comprometida, regra_cancelamento_restaurante, regra_erro_app_comprovado,
      regra_pedido_nao_confirmado, regra_erro_restaurante, regra_erro_entregador,
      regra_pedido_nao_recebido, regra_pedido_incompleto, regra_cobranca_duplicada,
      regra_cobranca_pos_cancelamento, hm, Bind.bind, Except.bind, Pure.pure, Except.pure]
    cases h : regra_atraso_excessivo ctx with
    | ok v =>
      cases v with
      | some resultado => rfl
      | none =>
        exfalso
        revert h
        simp [regra_atraso_excessivo, hm, ht, Bind.bind, Except.bind, Pure.pure, Except.pure]
        cases t with
        | none => simp
        | some n => split <;> (try split) <;> (try split) <;> simp_all
    | error e => rfl
  refine ⟨?_, ?_, ?_⟩
  · intro n hn hn0 h60
    subst hn
    have h : avaliar ctx = .ok (some
        { decisao := .APROVAR, confianca := .ALTA, codigo_politica := "ATRASO_A1_CRITICO",
          justificativa := s!"Atraso crítico de {n} minutos. Reembolso total aprovado.",
          pontuacao := 0.95,
          fatores := [("tempo_espera", .i n), ("nivel", .s "critico")] }) := by
      rw [chain]
      simp [regra_atraso_excessivo, TEMPO_ATRASO_CRITICO, hm, ht, hn0, h60,
        Bind.bind, Except.bind, Pure.pure, Except.pure]
    exact ⟨_, h, rfl, rfl, rfl⟩
  · intro n hn hn0 h30 h60
    subst hn
    have h60' : ¬ (60 : ℤ) ≤ n := by omega
    have h : avaliar ctx = .ok (some
        { decisao := .APROVAR, confianca := .MEDIA, codigo_politica := "ATRASO_A1_SIGNIFICATIVO",
          justificativa := s!"Atraso significativo de {n} minutos. Compensação aprovada.",
          pontuacao := 0.80,
          fatores := [("tempo_espera", .i n), ("nivel", .s "significativo"),
            ("reembolso", .s "parcial")] }) := by
      rw [chain]
      simp [regra_atraso_excessivo, TEMPO_ATRASO_CRITICO, TEMPO_ATRASO_SIGNIFICATIVO,
        hm, ht, hn0, h30, h60', Bind.bind, Except.bind, Pure.pure, Except.pure]
    exact ⟨_, h, rfl, rfl⟩
  · intro hsmall
    rcases hsmall with hnone | ⟨n, hn, hcase⟩
    · subst hnone
      have h : avaliar ctx = .ok (some
          { decisao := .ESCALAR, confianca := .BAIXA, codigo_politica := "ATRASO_A1_MODERADO",
            justificativa := "Atraso reportado. Requer análise do tempo estimado vs real.",
            pontuacao := 0.50,
            fatores := [("tempo_espera", .none), ("nivel", .s "moderado")] }) := by
        rw [chain]
        simp [regra_atraso_excessivo, hm, ht, Bind.bind, Except.bind, Pure.pure, Except.pure]
      exact ⟨_, h, rfl, rfl⟩
    · subst hn
      have h1 : ¬ (n ≠ 0 ∧ TEMPO_ATRASO_CRITICO ≤ n) := by
        simp only [TEMPO_ATRASO_CRITICO]; omega
      have h2 : ¬ (n ≠ 0 ∧ TEMPO_ATRASO_SIGNIFICATIVO ≤ n) := by
        simp only [TEMPO_ATRASO_SIGNIFICATIVO]; omega
      have h : avaliar ctx = .ok (some
          { decisao := .ESCALAR, confianca := .BAIXA, codigo_politica := "ATRASO_A1_MODERADO",
            justificativa := "Atraso reportado. Requer análise do tempo estimado vs real.",
            pontuacao := 0.50,
            fatores := [("tempo_espera", .i n), ("nivel", .s "moderado")] }) := by
        rw [chain]
        simp [regra_atraso_excessivo, hm, ht, h1, h2,
          Bind.bind, Except.bind, Pure.pure, Except.pure]
      exact ⟨_, h, rfl, rfl⟩

/-- C5 witness — the spec's end-to-end scenario 4: a 90-minute wait is
approved under the critical-delay policy code. -/
theorem atraso_particao_por_tempo_witness :
    ∃ r, avaliar { motivo := some "ATRASO_ENTREGA",
                   detalhes_adicionais := some (.dict [("tempo_espera", "90")]) } =
        .ok (some r) ∧ r.decisao = .APROVAR ∧ r.confianca = .ALTA ∧
        pyIn "CRITICO" r.codigo_politica = true :=
  (atraso_particao_por_tempo
    { motivo := some "ATRASO_ENTREGA",
      detalhes_adicionais := some (.dict [("tempo_espera", "90")]) }
    (some 90) rfl (by decide)).1 90 rfl (by decide) (by decide)

/-- Lookups miss exactly outside the key list. -/
theorem lookup_eq_none_of_not_mem_keys {β : Type} (l : List (String × β)) (x : String)
    (h : x ∉ l.map Prod.fst) : l.lookup x = none := by
  induction l with
  | nil => rfl
  | cons p rest ih =>
    simp only [List.map_cons, List.mem_cons, not_or] at h
    have hb : (x == p.1) = false := beq_eq_false_iff_ne.mpr h.1
    simp [List.lookup, hb, ih h.2]

/-- C2.  `calcular_score` is the fixed weighted sum — problem type 0.25,
order value 0.15, status 0.15, reason 0.25, policy 0.20 — of the five
sub-scores, the policy sub-score defaults to 0.5 when no rule fired, the
lookup-table sub-scores default to 0.5 on unknown values, and the
recommendation comes from the fixed thresholds 0.8 / 0.6 / 0.4 on the
(unrounded) final score; the returned `score_final` is that sum rounded
to three decimals. -/
theorem calcular_score_soma_ponderada (ctx : Contexto) (pol : Option ResultadoPolitica)
    (v : ℚ) (hv : score_valor ctx = .ok v) :
    calcular_score ctx pol = .ok
      { score_final := round3 (score_tipo_problema ctx * 0.25 + v * 0.15 +
          score_status ctx * 0.15 + score_motivo ctx * 0.25 +
          (match pol with | some r => r.pontuacao | none => 0.5) * 0.20)
        scores_parciais :=
          ⟨score_tipo_problema ctx, v, score_status ctx, score_motivo ctx,
           (match pol with | some r => r.pontuacao | none => 0.5)⟩
        recomendacao :=
          (fun s : ℚ =>
            if 0.8 ≤ s then "APROVAR - Alta confiança na elegibilidade"
            else if 0.6 ≤ s then "APROVAR_COM_ANALISE - Requer validação adicional"
            else if 0.4 ≤ s then "ESCALAR - Caso requer análise humana"
            else "REJEITAR - Baixa elegibilidade para reembolso")
          (score_tipo_problema ctx * 0.25 + v * 0.15 + score_status ctx * 0.15 +
           score_motivo ctx * 0.25 +
           (match pol with | some r => r.pontuacao | none => 0.5) * 0.20) } ∧
    (ctx.detalhes_adicionais = none → v = 0.5) ∧
    (ctx.categoria.getD "" ∉ ["fraude", "entrega", "reembolso", "financeiro", "suporte"] →
      score_tipo_problema ctx = 0.5) ∧
    (ctx.status.getD "" ∉ ["AGUARDANDO_CONFIRMACAO", "EM_PREPARACAO", "SAIU_PARA_ENTREGA",
        "ENTREGUE", "DESCONHECIDO"] → score_status ctx = 0.5) ∧
    (ctx.motivo.getD "" ∉ ["CANCELAMENTO_RESTAURANTE", "ERRO_RESTAURANTE", "ERRO_APP",
        "ERRO_ENTREGADOR", "NAO_RECEBIDO", "COBRANCA_DUPLICADA", "COBRANCA_POS_CANCELAMENTO",
        "INCOMPLETO", "PEDIDO_ERRADO", "ATRASO_ENTREGA", "VALOR_INCORRETO",
        "ARREPENDIMENTO_CLIENTE", "COMPRA_NAO_RECONHECIDA", "CONTA_COMPROMETIDA",
        "MULTIPLAS_COBRANCAS"] → score_motivo ctx = 0.5) := by
  refine ⟨?_, ?_, ?_, ?_, ?_⟩
  · cases pol with
    | some r =>
      simp [calcular_score, hv, gerar_recomendacao,
        Bind.bind, Except.bind, Pure.pure, Except.pure]
    | none =>
      simp [calcular_score, hv, gerar_recomendacao,
        Bind.bind, Except.bind, Pure.pure, Except.pure]
  · intro hd
    have : score_valor ctx = .ok 0.5 := by
      simp [score_valor, hd, dictGet, Bind.bind, Except.bind, Pure.pure, Except.pure]
    rw [hv] at this
    exact (Except.ok.injEq _ _).mp this
  · intro h
    have hnone := lookup_eq_none_of_not_mem_keys
      ([("fraude", 0.9), ("entrega", 0.8), ("reembolso", 0.7),
        ("financeiro", 0.75), ("suporte", 0.5)] : List (String × ℚ))
      (ctx.categoria.getD "") (by simpa using h)
    simp [score_tipo_problema, hnone]
  · intro h
    have hnone := lookup_eq_none_of_not_mem_keys
      ([("AGUARDANDO_CONFIRMACAO", 0.95), ("EM_PREPARACAO", 0.7),
        ("SAIU_PARA_ENTREGA", 0.4), ("ENTREGUE", 0.3),
        ("DESCONHECIDO", 0.5)] : List (String × ℚ))
      (ctx.status.getD "") (by simpa using h)
    simp [score_status, hnone]
  · intro h
    have hnone := lookup_eq_none_of_not_mem_keys
      ([("CANCELAMENTO_RESTAURANTE", 1.0), ("ERRO_RESTAURANTE", 0.95),
        ("ERRO_APP", 0.95), ("ERRO_ENTREGADOR", 0.9), ("NAO_RECEBIDO", 0.85),
        ("COBRANCA_DUPLICADA", 0.9), ("COBRANCA_POS_CANCELAMENTO", 0.9),
        ("INCOMPLETO", 0.75), ("PEDIDO_ERRADO", 0.75), ("ATRASO_ENTREGA", 0.6),
        ("VALOR_INCORRETO", 0.7), ("ARREPENDIMENTO_CLIENTE", 0.3),
        ("COMPRA_NAO_RECONHECIDA", 0.8), ("CONTA_COMPROMETIDA", 0.85),
        ("MULTIPLAS_COBRANCAS", 0.7)] : List (String × ℚ))
      (ctx.motivo.getD "") (by simpa using h)
    simp [score_motivo, hnone]

/-- C2 witness: an unknown-everything context with no fired rule scores
0.5 everywhere, and a context matching the spec's scenario 2 shape. -/
theorem calcular_score_soma_ponderada_witness :
    calcular_score { categoria := some "desconhecida", motivo := some "OUTRO",
                     status := some "PENDENTE" } none = .ok
      { score_final := round3 (0.5 * 0.25 + 0.5 * 0.15 + 0.5 * 0.15 + 0.5 * 0.25 + 0.5 * 0.20)
        scores_parciais := ⟨0.5, 0.5, 0.5, 0.5, 0.5⟩
        recomendacao := "ESCALAR - Caso requer análise humana" } := by
  have h := calcular_score_soma_ponderada
    { categoria := some "desconhecida", motivo := some "OUTRO", status := some "PENDENTE" }
    none 0.5 (by simp [score_valor, dictGet, Bind.bind, Except.bind, Pure.pure, Except.pure])
  have h1 := h.2.2.1 (by decide)
  have h2 := h.2.2.2.1 (by decide)
  have h3 := h.2.2.2.2 (by decide)
  rw [h.1, h1, h2, h3]
  norm_num

/-- C1 (code bug).  `processar_solicitacao` is wrapped by
`tratar_excecoes(valor_padrao=None)`, so an unexpected exception inside
the pipeline — here an `AttributeError` raised by
`_extrair_valor` because `detalhes_adicionais` is not a mapping — makes
the public entry point return `None`, not the degraded
`ESCALAR`/`Baixa`/`erro_fallback` decision that
`RecuperadorFalhas.criar_resposta_erro` builds (that helper is never
called).  The call indeed does not raise, but it returns an absent
result. -/
theorem processar_solicitacao_excecao_devolve_none :
    processar_solicitacao
      { base_conhecimento := mkBase []
        gerenciador_llm :=
          ⟨⟨false, .error "", "gpt-3.5-turbo"⟩, ⟨false, .error "", "gemini-pro"⟩⟩ }
      "Pedido não chegou mas consta como entregue"
      { categoria := some "entrega", motivo := some "NAO_RECEBIDO", status := some "ENTREGUE",
        detalhes_adicionais := some .nondict } = none ∧
    avaliar { categoria := some "entrega", motivo := some "NAO_RECEBIDO",
              status := some "ENTREGUE", detalhes_adicionais := some .nondict } =
      .error "AttributeError: no attribute get" ∧
    (criar_resposta_erro "mensagem").acao = "ESCALAR" ∧
    (criar_resposta_erro "mensagem").confianca = "Baixa" ∧
    (criar_resposta_erro "mensagem").metodo_decisao = "erro_fallback" := by
  have hav : avaliar { categoria := some "entrega", motivo := some "NAO_RECEBIDO",
                       status := some "ENTREGUE", detalhes_adicionais := some .nondict } =
      .error "AttributeError: no attribute get" := by decide
  refine ⟨?_, hav, rfl, rfl, rfl⟩
  simp [processar_solicitacao, tratar_excecoes, processar_solicitacao_corpo, hav,
    Bind.bind, Except.bind]

/-- C6.  The provider manager always has a usable provider: the local
heuristic analyzer reports available under every configuration, provider
selection in the fixed order OpenAI → Gemini → Local never yields `None`,
and every `analisar` call is dispatched to an actual provider (the
`Sem provedores` failure branch is unreachable). -/
theorem gerenciador_sempre_tem_provedor (g : GerenciadorLLM) (prompt : String)
    (ctxL : ContextoLLM) :
    analisador_local_esta_disponivel = true ∧
    ∃ p, g.obter_provedor_ativo = some p ∧
      g.analisar prompt ctxL none = g.analisar_com p prompt ctxL := by
  have h : g.obter_provedor_ativo = some
      (if g.openai.esta_disponivel then .OPENAI
       else if g.gemini.esta_disponivel then .GEMINI else .LOCAL) := by
    cases ho : g.openai.avail <;> cases hg : g.gemini.avail <;>
      simp [GerenciadorLLM.obter_provedor_ativo, ordem_preferencia,
        GerenciadorLLM.tem_provedor, GerenciadorLLM.provedor_esta_disponivel,
        analisador_local_esta_disponivel, ClienteOpenAI.esta_disponivel,
        ClienteGemini.esta_disponivel, List.find?, ho, hg]
  exact ⟨rfl, _, h, by simp [GerenciadorLLM.analisar, h]⟩

/-- Counterexample to C9 as stated: with an available client whose
transport call succeeds with the unstructured answer `"aprovar"`, the
parse of the structured output fails, yet `analisar` returns the keyword
heuristic's `success=True`, decision `APROVAR`, confidence `0.5` —
not the claimed `success=false`/`ESCALAR`/`0.0` error response. -/
theorem analisar_parse_heuristica_counterexample :
    (ClienteOpenAI.analisar ⟨true, .ok ("aprovar", 0), "gpt-3.5-turbo"⟩ "p"
      ⟨{}, none⟩).sucesso = true ∧
    (ClienteOpenAI.analisar ⟨true, .ok ("aprovar", 0), "gpt-3.5-turbo"⟩ "p"
      ⟨{}, none⟩).decisao_sugerida = "APROVAR" ∧
    (ClienteOpenAI.analisar ⟨true, .ok ("aprovar", 0), "gpt-3.5-turbo"⟩ "p"
      ⟨{}, none⟩).confianca = 0.5 :=
  ⟨by decide, by decide, rfl⟩

/-- C9 (amended).  Remote provider `analisar` never raises past its
boundary.  When the client is unavailable, or the transport call fails,
it returns the exact degraded response `success=false`,
`ESCALAR`, confidence `0`, with the failure recorded in `erro`.  A reply
whose structured parse fails without a stray exception instead yields
the keyword-heuristic fallback (`success=true`, confidence `0.5`). -/
theorem clientes_remotos_nunca_levantam (cO : ClienteOpenAI) (cG : ClienteGemini)
    (prompt : String) (ctxL : ContextoLLM) :
    (cO.avail = false → cO.analisar prompt ctxL =
      { texto := "", decisao_sugerida := "ESCALAR", confianca := 0.0,
        justificativa := "API OpenAI não disponível", sucesso := false,
        erro := "Cliente não inicializado" }) ∧
    (∀ e, cO.avail = true → cO.api = .error e → cO.analisar prompt ctxL =
      { texto := "", decisao_sugerida := "ESCALAR", confianca := 0.0,
        justificativa := s!"Erro na API: {e}", sucesso := false, erro := e }) ∧
    (∀ texto toks, cO.avail = true → cO.api = .ok (texto, toks) → pyFind texto '{' = -1 →
      cO.analisar prompt ctxL =
        { parsear_fallback_openai texto with tokens_usados := toks, modelo := cO.modelo }) ∧
    (cG.avail = false → cG.analisar prompt ctxL =
      { texto := "", decisao_sugerida := "ESCALAR", confianca := 0.0,
        justificativa := "API Gemini não disponível", sucesso := false,
        erro := "Cliente não inicializado" }) ∧
    (∀ e, cG.avail = true → cG.api = .error e → cG.analisar prompt ctxL =
      { texto := "", decisao_sugerida := "ESCALAR", confianca := 0.0,
        justificativa := s!"Erro na API: {e}", sucesso := false, erro := e }) ∧
    (∀ texto, cG.avail = true → cG.api = .ok texto → pyFind texto '{' = -1 →
      cG.analisar prompt ctxL =
        { parsear_fallback_gemini texto with modelo := cG.modelo }) := by
  refine ⟨?_, ?_, ?_, ?_, ?_, ?_⟩
  · intro h
    simp [ClienteOpenAI.analisar, ClienteOpenAI.esta_disponivel, h]
  · intro e h he
    simp [ClienteOpenAI.analisar, ClienteOpenAI.esta_disponivel, ClienteOpenAI.analisar_corpo,
      h, he, Bind.bind, Except.bind, Pure.pure, Except.pure]
  · intro texto toks h he hb
    have hparse : parsear_estruturado texto = .error .caught := by
      simp [parsear_estruturado, hb]
    simp [ClienteOpenAI.analisar, ClienteOpenAI.esta_disponivel, ClienteOpenAI.analisar_corpo,
      parsear_resposta_openai, h, he, hparse, Bind.bind, Except.bind, Pure.pure, Except.pure]
  · intro h
    simp [ClienteGemini.analisar, ClienteGemini.esta_disponivel, h]
  · intro e h he
    simp [ClienteGemini.analisar, ClienteGemini.esta_disponivel, ClienteGemini.analisar_corpo,
      h, he, Bind.bind, Except.bind, Pure.pure, Except.pure]
  · intro texto h he hb
    have hparse : parsear_estruturado texto = .error .caught := by
      simp [parsear_estruturado, hb]
    simp [ClienteGemini.analisar, ClienteGemini.esta_disponivel, ClienteGemini.analisar_corpo,
      parsear_resposta_gemini, h, he, hparse, Bind.bind, Except.bind, Pure.pure, Except.pure]

/-- C9 witness: the unavailable-client branch at a concrete client. -/
theorem clientes_remotos_nunca_levantam_witness :
    ClienteOpenAI.analisar ⟨false, .error "net", "gpt-3.5-turbo"⟩ "p" ⟨{}, none⟩ =
      { texto := "", decisao_sugerida := "ESCALAR", confianca := 0.0,
        justificativa := "API OpenAI não disponível", sucesso := false,
        erro := "Cliente não inicializado" } :=
  (clientes_remotos_nunca_levantam ⟨false, .error "net", "gpt-3.5-turbo"⟩
    ⟨false, .error "net", "gemini-pro"⟩ "p" ⟨{}, none⟩).1 rfl

/-! ### Text-normalisation lemmas (for C8) -/

theorem char_toNat_ofNat (n : ℕ) (h : n < 55296) : (Char.ofNat n).toNat = n := by
  unfold Char.ofNat
  split
  · rfl
  · rename_i hn
    exact absurd (Or.inl (by exact_mod_cast h)) hn

theorem pyLower_idem (c : Char) : pyLower (pyLower c) = pyLower c := by
  unfold pyLower
  by_cases h1 : 65 ≤ c.toNat ∧ c.toNat ≤ 90
  · rw [if_pos h1]
    have hd : (Char.ofNat (c.toNat + 32)).toNat = c.toNat + 32 :=
      char_toNat_ofNat _ (by omega)
    rw [if_neg (by rw [hd]; omega), if_neg (by rw [hd]; omega)]
  · rw [if_neg h1]
    by_cases h2 : 0xC0 ≤ c.toNat ∧ c.toNat ≤ 0xDE ∧ c.toNat ≠ 0xD7
    · rw [if_pos h2]
      have hd : (Char.ofNat (c.toNat + 32)).toNat = c.toNat + 32 :=
        char_toNat_ofNat _ (by omega)
      rw [if_neg (by rw [hd]; omega), if_neg (by rw [hd]; omega)]
    · rw [if_neg h2, if_neg h1, if_neg h2]

/-- A character produced by `normStep` that is not whitespace is a fixed
point of `normStep`. -/
theorem normStep_fix (c : Char) (h : isPySpace (normStep c) = false) :
    normStep (normStep c) = normStep c := by
  by_cases hw : isWordChar (pyLower c) = true
  · have hstep : normStep c = pyLower c := by simp [normStep, hw]
    have hw2 : isWordChar (pyLower (pyLower c)) = true := by
      rw [pyLower_idem]; exact hw
    rw [hstep]
    simp [normStep, hw2, pyLower_idem, hw]
  · have hw' : isWordChar (pyLower c) = false := by simpa using hw
    by_cases hs : isPySpace (pyLower c) = true
    · have hstep : normStep c = pyLower c := by simp [normStep, hw', hs]
      rw [hstep] at h
      exact absurd hs (by simp [h])
    · have hs' : isPySpace (pyLower c) = false := by simpa using hs
      have hstep : normStep c = ' ' := by simp [normStep, hw', hs']
      rw [hstep] at h
      exact absurd h (by decide)

theorem normStep_space : normStep ' ' = ' ' := by decide

/-- Every word produced by `splitWords` is non-empty and consists of
non-whitespace characters of the input. -/
theorem splitWords_sound (l : List Char) :
    ∀ w ∈ splitWords l, w ≠ [] ∧ ∀ c ∈ w, c ∈ l ∧ isPySpace c = false := by
  induction l with
  | nil => intro w hw; simp [splitWords] at hw
  | cons c cs ih =>
    cases cs with
    | nil =>
      intro w hw
      by_cases hc : isPySpace c = true
      · simp [splitWords, hc] at hw
      · have hc' : isPySpace c = false := by simpa using hc
        simp only [splitWords, hc', Bool.false_eq_true, if_false, List.mem_singleton] at hw
        subst hw
        exact ⟨by simp, fun e he => by
          simp only [List.mem_singleton] at he
          subst he
          exact ⟨by simp, hc'⟩⟩
    | cons d cs' =>
      intro w hw
      by_cases hc : isPySpace c = true
      · rw [splitWords, if_pos hc] at hw
        obtain ⟨hne, hall⟩ := ih w hw
        exact ⟨hne, fun e he => ⟨List.mem_cons_of_mem _ (hall e he).1, (hall e he).2⟩⟩
      · have hc' : isPySpace c = false := by simpa using hc
        by_cases hd : isPySpace d = true
        · rw [splitWords, if_neg (by simp [hc']), if_pos hd] at hw
          rcases List.mem_cons.mp hw with rfl | hw
          · exact ⟨by simp, fun e he => by
              simp only [List.mem_singleton] at he
              subst he
              exact ⟨by simp, hc'⟩⟩
          · obtain ⟨hne, hall⟩ := ih w hw
            exact ⟨hne, fun e he => ⟨List.mem_cons_of_mem _ (hall e he).1, (hall e he).2⟩⟩
        · have hd' : isPySpace d = false := by simpa using hd
          rw [splitWords, if_neg (by simp [hc']), if_neg (by simp [hd'])] at hw
          cases hrest : splitWords (d :: cs') with
          | nil =>
            rw [hrest] at hw
            simp only [List.mem_singleton] at hw
            subst hw
            exact ⟨by simp, fun e he => by
              simp only [List.mem_singleton] at he
              subst he
              exact ⟨by simp, hc'⟩⟩
          | cons r rs =>
            rw [hrest] at hw
            rcases List.mem_cons.mp hw with rfl | hw
            · obtain ⟨-, hallr⟩ := ih r (by rw [hrest]; simp)
              refine ⟨by simp, fun e he => ?_⟩
              rcases List.mem_cons.mp he with rfl | he
              · exact ⟨by simp, hc'⟩
              · exact ⟨List.mem_cons_of_mem _ (hallr e he).1, (hallr e he).2⟩
            · obtain ⟨hne, hall⟩ := ih w (by rw [hrest]; simp [hw])
              exact ⟨hne, fun e he => ⟨List.mem_cons_of_mem _ (hall e he).1, (hall e he).2⟩⟩

/-- A non-empty whitespace-free word splits as a single word. -/
theorem splitWords_word (w : List Char) (hne : w ≠ [])
    (hw : ∀ x ∈ w, isPySpace x = false) : splitWords w = [w] := by
  induction w with
  | nil => exact absurd rfl hne
  | cons c w' ih =>
    have hc : isPySpace c = false := hw c (by simp)
    cases w' with
    | nil => simp [splitWords, hc]
    | cons d w'' =>
      have hd : isPySpace d = false := hw d (by simp)
      have ih' : splitWords (d :: w'') = [d :: w''] :=
        ih (by simp) (fun x hx => hw x (List.mem_cons_of_mem _ hx))
      rw [splitWords, if_neg (by simp [hc]), if_neg (by simp [hd]), ih']

/-- A leading space is dropped. -/
theorem splitWords_space_cons (L : List Char) :
    splitWords (' ' :: L) = splitWords L := by
  cases L with
  | nil => simp [splitWords, isPySpace]
  | cons e L' => rw [splitWords, if_pos (by decide)]

/-- Prepending a whitespace-separated word. -/
theorem splitWords_word_append (w L : List Char) (hne : w ≠ [])
    (hw : ∀ x ∈ w, isPySpace x = false) :
    splitWords (w ++ ' ' :: L) = w :: splitWords L := by
  induction w with
  | nil => exact absurd rfl hne
  | cons c w' ih =>
    have hc : isPySpace c = false := hw c (by simp)
    cases w' with
    | nil =>
      show splitWords (c :: ' ' :: L) = [c] :: splitWords L
      rw [splitWords, if_neg (by simp [hc]), if_pos (by decide),
        splitWords_space_cons]
    | cons d w'' =>
      have hd : isPySpace d = false := hw d (by simp)
      have ih' : splitWords (d :: w'' ++ ' ' :: L) = (d :: w'') :: splitWords L :=
        ih (by simp) (fun x hx => hw x (List.mem_cons_of_mem _ hx))
      simp only [List.cons_append] at ih' ⊢
      rw [splitWords, if_neg (by simp [hc]), if_neg (by simp [hd]), ih']


/-- `splitWords` is a left inverse of interspersing single spaces
between non-empty whitespace-free words. -/
theorem splitWords_intercalate (ws : List (List Char))
    (h : ∀ w ∈ ws, w ≠ [] ∧ ∀ c ∈ w, isPySpace c = false) :
    splitWords (List.intercalate [' '] ws) = ws := by
  induction ws with
  | nil => simp [List.intercalate, splitWords]
  | cons w rest ih =>
    obtain ⟨hne, hnsp⟩ := h w (by simp)
    cases rest with
    | nil =>
      have hone : List.intercalate [' '] [w] = w := by
        simp [List.intercalate, List.intersperse]
      rw [hone]
      exact splitWords_word w hne hnsp
    | cons w2 rest' =>
      have hstep : List.intercalate [' '] (w :: w2 :: rest') =
          w ++ ' ' :: List.intercalate [' '] (w2 :: rest') := by
        simp [List.intercalate, List.intersperse]
      rw [hstep, splitWords_word_append w _ hne hnsp,
        ih (fun v hv => h v (List.mem_cons_of_mem _ hv))]


theorem mem_intercalate_space (ws : List (List Char)) (c : Char)
    (hc : c ∈ List.intercalate [' '] ws) : c = ' ' ∨ ∃ w ∈ ws, c ∈ w := by
  induction ws with
  | nil => simp [List.intercalate] at hc
  | cons w rest ih =>
    cases rest with
    | nil =>
      have hone : List.intercalate [' '] [w] = w := by
        simp [List.intercalate, List.intersperse]
      rw [hone] at hc
      exact Or.inr ⟨w, by simp, hc⟩
    | cons w2 rest' =>
      have hstep : List.intercalate [' '] (w :: w2 :: rest') =
          w ++ ' ' :: List.intercalate [' '] (w2 :: rest') := by
        simp [List.intercalate, List.intersperse]
      rw [hstep] at hc
      rcases List.mem_append.mp hc with h | h
      · exact Or.inr ⟨w, by simp, h⟩
      · rcases List.mem_cons.mp h with rfl | h
        · exact Or.inl rfl
        · rcases ih h with h' | ⟨v, hv, hcv⟩
          · exact Or.inl h'
          · exact Or.inr ⟨v, by simp [List.mem_cons.mp hv], hcv⟩

/-- Characters of the normalised word list are fixed by `normStep`. -/
theorem normStep_fix_on_output (l : List Char) :
    ∀ c ∈ List.intercalate [' '] (splitWords (l.map normStep)), normStep c = c := by
  intro c hc
  rcases mem_intercalate_space _ c hc with rfl | ⟨w, hw, hcw⟩
  · exact normStep_space
  · obtain ⟨-, hall⟩ := splitWords_sound _ w hw
    obtain ⟨hmem, hnsp⟩ := hall c hcw
    obtain ⟨c0, -, rfl⟩ := List.mem_map.mp hmem
    exact normStep_fix c0 hnsp

/-- C8.  Text normalisation is idempotent, and tokenisation with
stopword removal never returns a token of length ≤ 2 nor a stopword. -/
theorem normalizar_idempotente_e_tokens :
    (∀ x : String, normalizar (normalizar x) = normalizar x) ∧
    (∀ (x : String) (t : String), t ∈ tokenizar x true → 2 < t.length ∧ t ∉ STOPWORDS) := by
  constructor
  · intro x
    unfold normalizar
    congr 1
    have htl : ((List.intercalate [' ']
        (splitWords (x.toList.map normStep))).asString).toList =
        List.intercalate [' '] (splitWords (x.toList.map normStep)) := rfl
    rw [htl]
    have hmap : (List.intercalate [' '] (splitWords (x.toList.map normStep))).map normStep
        = List.intercalate [' '] (splitWords (x.toList.map normStep)) := by
      have h1 := normStep_fix_on_output (x.toList)
      calc (List.intercalate [' '] (splitWords (x.toList.map normStep))).map normStep
          = (List.intercalate [' '] (splitWords (x.toList.map normStep))).map id :=
            List.map_congr_left h1
        _ = _ := List.map_id _
    rw [hmap]
    rw [splitWords_intercalate _ (fun w hw =>
      ⟨(splitWords_sound _ w hw).1, fun c hc => ((splitWords_sound _ w hw).2 c hc).2⟩)]
  · intro x t ht
    unfold tokenizar at ht
    simp only [if_true] at ht
    have := List.mem_filter.mp ht
    have hcond := this.2
    simp only [Bool.and_eq_true, decide_eq_true_eq] at hcond
    exact ⟨hcond.2, hcond.1⟩

/-- C8 witness: a concrete claim text — normalisation is stable and no
short token or stopword survives. -/
theorem normalizar_idempotente_e_tokens_witness :
    normalizar (normalizar "Não! Quero CANCELAR o pedido...") =
      normalizar "Não! Quero CANCELAR o pedido..." ∧
    (2 < "cancelar".length ∧ "cancelar" ∉ STOPWORDS) := by
  refine ⟨normalizar_idempotente_e_tokens.1 "Não! Quero CANCELAR o pedido...", ?_⟩
  refine normalizar_idempotente_e_tokens.2 "quero cancelar" "cancelar" ?_
  have hev : tokenizar "quero cancelar" true = ["quero", "cancelar"] := by decide
  rw [hev]
  simp

/-! ### TF-IDF similarity lemmas (C7, C3) -/

theorem sumSqVals_nonneg (l : List (String × ℝ)) : 0 ≤ sumSqVals l := by
  unfold sumSqVals
  apply List.sum_nonneg
  intro x hx
  obtain ⟨p, -, rfl⟩ := List.mem_map.mp hx
  positivity

theorem sqrt_sumSqVals_eq_zero_iff (l : List (String × ℝ)) :
    Real.sqrt (sumSqVals l) = 0 ↔ sumSqVals l = 0 := by
  constructor
  · intro h
    exact le_antisymm (Real.sqrt_eq_zero'.mp h) (sumSqVals_nonneg l)
  · intro h
    rw [h]
    exact Real.sqrt_zero

/-- C7.  `calcular_similaridade` returns `0` when either the query or
the document TF-IDF vector has zero norm (equivalently, zero sum of
squares); otherwise it returns the cosine — the dot product divided by
the product of the two norms — and that denominator is non-zero. -/
theorem calcular_similaridade_guardas (m : MotorTFIDF) (consulta : String) (idx : ℕ)
    (hidx : idx < m.documentos_tfidf.length) :
    (Real.sqrt (sumSqVals (tfidf_consulta m consulta)) = 0 ∨
       Real.sqrt (sumSqVals ((m.documentos_tfidf.get? idx).getD [])) = 0 →
      calcular_similaridade m consulta idx = 0) ∧
    (Real.sqrt (sumSqVals (tfidf_consulta m consulta)) ≠ 0 ∧
       Real.sqrt (sumSqVals ((m.documentos_tfidf.get? idx).getD [])) ≠ 0 →
      calcular_similaridade m consulta idx =
        dotProduct (tfidf_consulta m consulta) ((m.documentos_tfidf.get? idx).getD []) /
          (Real.sqrt (sumSqVals (tfidf_consulta m consulta)) *
           Real.sqrt (sumSqVals ((m.documentos_tfidf.get? idx).getD []))) ∧
      Real.sqrt (sumSqVals (tfidf_consulta m consulta)) *
        Real.sqrt (sumSqVals ((m.documentos_tfidf.get? idx).getD [])) ≠ 0) ∧
    (∀ l : List (String × ℝ),
      Real.sqrt (sumSqVals l) = 0 ↔ sumSqVals l = 0) := by
  refine ⟨?_, ?_, sqrt_sumSqVals_eq_zero_iff⟩
  · intro h
    unfold calcular_similaridade
    rw [if_pos h]
  · intro h
    unfold calcular_similaridade
    rw [if_neg (by tauto)]
    exact ⟨rfl, mul_ne_zero h.1 h.2⟩

/-- C7 witness: the degenerate one-item base whose document tokens are
all filtered out — the document vector is empty, so the similarity is
the guarded `0`. -/
theorem calcular_similaridade_guardas_witness :
    0 < (mkBase [⟨"x", "a", "b", "f1"⟩]).motor_tfidf.documentos_tfidf.length ∧
    calcular_similaridade (mkBase [⟨"x", "a", "b", "f1"⟩]).motor_tfidf "zzz" 0 = 0 := by
  have hlen : (mkBase [⟨"x", "a", "b", "f1"⟩]).motor_tfidf.documentos_tfidf.length = 1 := by
    simp [mkBase, construir_indice]
  refine ⟨by rw [hlen]; norm_num, ?_⟩
  have h := (calcular_similaridade_guardas (mkBase [⟨"x", "a", "b", "f1"⟩]).motor_tfidf
    "zzz" 0 (by rw [hlen]; norm_num)).1
  apply h
  right
  have htok : tokenizar "x a b" true = [] := by decide
  have hdoc : (((mkBase [⟨"x", "a", "b", "f1"⟩]).motor_tfidf.documentos_tfidf.get? 0).getD [])
      = [] := by
    simp [mkBase, construir_indice, htok]
  rw [hdoc]
  show Real.sqrt (sumSqVals []) = 0
  simp [sumSqVals, Real.sqrt_zero]

theorem lookup_cons_eq_ite {β : Type} (k' : String) (v : β) (rest : List (String × β))
    (t : String) :
    ((k', v) :: rest).lookup t = if t = k' then some v else rest.lookup t := by
  by_cases h : t = k'
  · simp [List.lookup, h]
  · simp [List.lookup, h, beq_false_of_ne h]

theorem dget_sq_sum_le (l : List (String × ℝ)) (s : Finset String) :
    ∑ t ∈ s, dget l t ^ 2 ≤ sumSqVals l := by
  induction l generalizing s with
  | nil =>
    simp [dget, sumSqVals, List.lookup]
  | cons p rest ih =>
    have hd : ∀ t : String, dget (p :: rest) t = if t = p.1 then p.2 else dget rest t := by
      intro t
      unfold dget
      rw [lookup_cons_eq_ite p.1 p.2 rest t]
      by_cases h : t = p.1
      · simp [h]
      · simp [h]
    have hsum : sumSqVals (p :: rest) = p.2 ^ 2 + sumSqVals rest := by
      simp [sumSqVals]
    by_cases hp : p.1 ∈ s
    · rw [← Finset.add_sum_erase s _ hp, hsum]
      apply add_le_add
      · rw [hd p.1, if_pos rfl]
      · calc ∑ t ∈ s.erase p.1, dget (p :: rest) t ^ 2
            = ∑ t ∈ s.erase p.1, dget rest t ^ 2 := by
              apply Finset.sum_congr rfl
              intro t ht
              rw [hd t, if_neg (Finset.ne_of_mem_erase ht)]
          _ ≤ sumSqVals rest := ih _
    · rw [hsum]
      have heq : ∑ t ∈ s, dget (p :: rest) t ^ 2 = ∑ t ∈ s, dget rest t ^ 2 := by
        apply Finset.sum_congr rfl
        intro t ht
        rw [hd t, if_neg]
        intro h
        exact hp (h ▸ ht)
      rw [heq]
      nlinarith [ih s, sq_nonneg p.2]

theorem calcular_similaridade_le_one (m : MotorTFIDF) (consulta : String) (idx : ℕ) :
    calcular_similaridade m consulta idx ≤ 1 := by
  unfold calcular_similaridade
  by_cases h : Real.sqrt (sumSqVals (tfidf_consulta m consulta)) = 0 ∨
      Real.sqrt (sumSqVals ((m.documentos_tfidf.get? idx).getD [])) = 0
  · rw [if_pos h]
    norm_num
  · rw [if_neg h]
    push_neg at h
    have hqpos : 0 < Real.sqrt (sumSqVals (tfidf_consulta m consulta)) :=
      lt_of_le_of_ne (Real.sqrt_nonneg _) (Ne.symm h.1)
    have hdpos : 0 < Real.sqrt (sumSqVals ((m.documentos_tfidf.get? idx).getD [])) :=
      lt_of_le_of_ne (Real.sqrt_nonneg _) (Ne.symm h.2)
    rw [div_le_one (mul_pos hqpos hdpos)]
    calc dotProduct (tfidf_consulta m consulta) ((m.documentos_tfidf.get? idx).getD [])
        = ∑ t ∈ dictKeys (tfidf_consulta m consulta) ∪
            dictKeys ((m.documentos_tfidf.get? idx).getD []),
            dget (tfidf_consulta m consulta) t * dget ((m.documentos_tfidf.get? idx).getD []) t :=
          rfl
      _ ≤ Real.sqrt (∑ t ∈ dictKeys (tfidf_consulta m consulta) ∪
              dictKeys ((m.documentos_tfidf.get? idx).getD []),
              dget (tfidf_consulta m consulta) t ^ 2) *
          Real.sqrt (∑ t ∈ dictKeys (tfidf_consulta m consulta) ∪
              dictKeys ((m.documentos_tfidf.get? idx).getD []),
              dget ((m.documentos_tfidf.get? idx).getD []) t ^ 2) :=
          Real.sum_mul_le_sqrt_mul_sqrt _ _ _
      _ ≤ Real.sqrt (sumSqVals (tfidf_consulta m consulta)) *
          Real.sqrt (sumSqVals ((m.documentos_tfidf.get? idx).getD [])) := by
          apply mul_le_mul
          · exact Real.sqrt_le_sqrt (dget_sq_sum_le _ _)
          · exact Real.sqrt_le_sqrt (dget_sq_sum_le _ _)
          · exact Real.sqrt_nonneg _
          · exact Real.sqrt_nonneg _

theorem sumSqVals_eq_zero_of (l : List (String × ℝ)) (h : ∀ p ∈ l, p.2 = 0) :
    sumSqVals l = 0 := by
  unfold sumSqVals
  apply List.sum_eq_zero
  intro x hx
  obtain ⟨p, hp, rfl⟩ := List.mem_map.mp hx
  rw [h p hp]
  norm_num

theorem mem_atualizar {β : Type} (l : List (String × β)) (k : String) (f : β → β)
    (e : String × β) (he : e ∈ atualizar l k f) :
    e ∈ l ∨ ∃ v, (e.1, v) ∈ l ∧ e.2 = f v ∧ e.1 = k := by
  induction l with
  | nil =>
    simp [atualizar] at he
  | cons p rest ih =>
    obtain ⟨k', v'⟩ := p
    unfold atualizar at he
    split_ifs at he with hk
    · rcases List.mem_cons.mp he with h | h
      · right
        subst h
        subst hk
        exact ⟨v', List.mem_cons_self _ _, rfl, rfl⟩
      · left
        exact List.mem_cons_of_mem _ h
    · rcases List.mem_cons.mp he with h | h
      · left
        exact h ▸ List.mem_cons_self _ _
      · rcases ih h with h2 | ⟨v, hv, hev, hek⟩
        · left
          exact List.mem_cons_of_mem _ h2
        · right
          exact ⟨v, List.mem_cons_of_mem _ hv, hev, hek⟩

theorem mem_buscar_exato_bounds (base : BaseConhecimentoSemantica) (consulta : String)
    (r : ResultadoBusca) (hr : r ∈ buscar_exato base consulta) :
    0 ≤ r.score_similaridade ∧ r.score_similaridade ≤ 1 := by
  unfold buscar_exato at hr
  obtain ⟨item, hitem, hsome⟩ := List.mem_filterMap.mp hr
  dsimp only at hsome
  split_ifs at hsome with h1 h2 h3 h4
  · -- nonempty intersection, nonempty query token set, score above 0.3
    rw [Option.some.injEq] at hsome
    rw [← hsome]
    dsimp only
    have hqpos : 0 < ((tokenizar consulta true).toFinset.card : ℝ) := by
      exact_mod_cast Finset.card_pos.mpr h2
    constructor
    · positivity
    · rw [div_le_one hqpos]
      exact_mod_cast Finset.card_le_card (Finset.inter_subset_left)
  · norm_num at h4

theorem mem_buscar_tfidf_bounds (base : BaseConhecimentoSemantica) (consulta : String)
    (k : ℕ) (r : ResultadoBusca) (hr : r ∈ buscar_tfidf base consulta k) :
    0 ≤ r.score_similaridade ∧ r.score_similaridade ≤ 1 := by
  unfold buscar_tfidf at hr
  split_ifs at hr with hb
  · simp at hr
  · obtain ⟨p, hp, rfl⟩ := List.mem_map.mp hr
    have hp2 := List.mem_mergeSort.mp (List.take_subset _ _ hp)
    obtain ⟨idx, hidx, hsome⟩ := List.mem_filterMap.mp hp2
    dsimp only at hsome
    split_ifs at hsome with hs
    · rw [Option.some.injEq] at hsome
      rw [← hsome]
      dsimp only
      exact ⟨le_of_lt (lt_trans (by norm_num) hs), calcular_similaridade_le_one _ _ _⟩

theorem mem_buscar_por_categoria_score (base : BaseConhecimentoSemantica) (cat : String)
    (r : ResultadoBusca) (hr : r ∈ buscar_por_categoria base cat) :
    r.score_similaridade = 1 := by
  unfold buscar_por_categoria at hr
  obtain ⟨item, hitem, hsome⟩ := List.mem_filterMap.mp hr
  split_ifs at hsome with hc
  rw [Option.some.injEq] at hsome
  rw [← hsome]
  norm_num

theorem map_filterMap_sublist {α β γ : Type} (f : α → Option β) (g : β → γ) (h : α → γ)
    (l : List α) (hf : ∀ a b, f a = some b → g b = h a) :
    ((l.filterMap f).map g).Sublist (l.map h) := by
  induction l with
  | nil => simp
  | cons a l ih =>
    rw [List.map_cons, List.filterMap_cons]
    cases hfa : f a with
    | none =>
      exact ih.trans (List.sublist_cons_self _ _)
    | some b =>
      rw [List.map_cons, hf a b hfa]
      exact ih.cons₂ _

theorem buscar_exato_fontes_nodup (base : BaseConhecimentoSemantica) (consulta : String)
    (hnodup : (base.itens.map (fun i => i.fonte)).Nodup) :
    ((buscar_exato base consulta).map (fun x => x.item.fonte)).Nodup := by
  refine List.Nodup.sublist ?_ hnodup
  unfold buscar_exato
  apply map_filterMap_sublist
  intro item r hsome
  dsimp only at hsome
  split_ifs at hsome with h1 h2 h3 h4
  · rw [Option.some.injEq] at hsome
    rw [← hsome]
  · norm_num at h4

theorem foldl_passo_categoria_score (l : List ResultadoBusca)
    (acc : List (String × ResultadoBusca))
    (hl : ∀ x ∈ l, x.score_similaridade = 1)
    (hacc : ∀ e ∈ acc, e.2.score_similaridade = 1.2) :
    ∀ e ∈ l.foldl passo_categoria acc, e.2.score_similaridade = 1.2 := by
  induction l generalizing acc with
  | nil => exact hacc
  | cons x l ih =>
    intro e he
    rw [List.foldl_cons] at he
    refine ih _ (fun y hy => hl y (List.mem_cons_of_mem _ hy)) ?_ e he
    intro e' he'
    unfold passo_categoria at he'
    split_ifs at he' with hc
    · exact hacc e' he'
    · rcases List.mem_append.mp he' with h | h
      · exact hacc e' h
      · rw [List.mem_singleton] at h
        subst h
        dsimp only
        rw [hl x (List.mem_cons_self x l)]
        norm_num

theorem foldl_passo_tfidf_bounds (l : List ResultadoBusca)
    (acc : List (String × ResultadoBusca))
    (hl : ∀ x ∈ l, 0 ≤ x.score_similaridade ∧ x.score_similaridade ≤ 1)
    (hacc : ∀ e ∈ acc, 0 ≤ e.2.score_similaridade ∧ e.2.score_similaridade ≤ 1.2) :
    ∀ e ∈ l.foldl passo_tfidf acc,
      0 ≤ e.2.score_similaridade ∧ e.2.score_similaridade ≤ 1.2 := by
  induction l generalizing acc with
  | nil => exact hacc
  | cons x l ih =>
    intro e he
    rw [List.foldl_cons] at he
    refine ih _ (fun y hy => hl y (List.mem_cons_of_mem _ hy)) ?_ e he
    intro e' he'
    obtain ⟨hx0, hx1⟩ := hl x (List.mem_cons_self x l)
    unfold passo_tfidf at he'
    split_ifs at he' with hc
    · rcases mem_atualizar _ _ _ _ he' with h | ⟨v, hv, hev, -⟩
      · exact hacc e' h
      · obtain ⟨hv0, hv1⟩ := hacc (e'.1, v) hv
        dsimp only at hv0 hv1
        rw [hev]
        dsimp only
        constructor
        · exact le_trans hv0 (le_max_left _ _)
        · exact max_le hv1 (le_trans hx1 (by norm_num))
    · rcases List.mem_append.mp he' with h | h
      · exact hacc e' h
      · rw [List.mem_singleton] at h
        subst h
        exact ⟨hx0, le_trans hx1 (by norm_num)⟩

theorem foldl_passo_exato_bounds (l : List ResultadoBusca)
    (acc : List (String × ResultadoBusca))
    (hnd : (l.map (fun x => x.item.fonte)).Nodup)
    (hl : ∀ x ∈ l, 0 ≤ x.score_similaridade ∧ x.score_similaridade ≤ 1)
    (hacc : ∀ e ∈ acc, 0 ≤ e.2.score_similaridade ∧ e.2.score_similaridade ≤ 1.7 ∧
      (e.1 ∈ l.map (fun x => x.item.fonte) → e.2.score_similaridade ≤ 1.2)) :
    ∀ e ∈ l.foldl passo_exato acc,
      0 ≤ e.2.score_similaridade ∧ e.2.score_similaridade ≤ 1.7 := by
  induction l generalizing acc with
  | nil => exact fun e he => ⟨(hacc e he).1, (hacc e he).2.1⟩
  | cons x l ih =>
    intro e he
    rw [List.foldl_cons] at he
    rw [List.map_cons, List.nodup_cons] at hnd
    obtain ⟨hxnot, hnd'⟩ := hnd
    obtain ⟨hx0, hx1⟩ := hl x (List.mem_cons_self x l)
    refine ih _ hnd' (fun y hy => hl y (List.mem_cons_of_mem _ hy)) ?_ e he
    intro e' he'
    unfold passo_exato at he'
    split_ifs at he' with hc
    · rcases mem_atualizar _ _ _ _ he' with h | ⟨v, hv, hev, hek⟩
      · obtain ⟨h0, h1, hp⟩ := hacc e' h
        refine ⟨h0, h1, fun hmem => hp ?_⟩
        rw [List.map_cons]
        exact List.mem_cons_of_mem _ hmem
      · obtain ⟨hv0, -, hvp⟩ := hacc (e'.1, v) hv
        dsimp only at hv0 hvp
        have hv12 : v.score_similaridade ≤ 1.2 := by
          apply hvp
          rw [hek, List.map_cons]
          exact List.mem_cons_self _ _
        rw [hev]
        dsimp only
        refine ⟨by nlinarith, by nlinarith, fun hmem => ?_⟩
        rw [hek] at hmem
        exact absurd hmem hxnot
    · rcases List.mem_append.mp he' with h | h
      · obtain ⟨h0, h1, hp⟩ := hacc e' h
        refine ⟨h0, h1, fun hmem => hp ?_⟩
        rw [List.map_cons]
        exact List.mem_cons_of_mem _ hmem
      · rw [List.mem_singleton] at h
        subst h
        refine ⟨hx0, le_trans hx1 (by norm_num), fun hmem => ?_⟩
        exact absurd hmem hxnot

theorem buscar_merge_bounds (base : BaseConhecimentoSemantica) (consulta : String)
    (k : ℕ) (passo1 : List (String × ResultadoBusca)) (r : ResultadoBusca)
    (hnodup : (base.itens.map (fun i => i.fonte)).Nodup)
    (hp1 : ∀ e ∈ passo1, e.2.score_similaridade = 1.2)
    (hr : r ∈ ((((buscar_exato base consulta).foldl passo_exato
        ((buscar_tfidf base consulta (k * 2)).foldl passo_tfidf passo1)).map
          Prod.snd).mergeSort
        (fun a b => decide (b.score_similaridade ≤ a.score_similaridade))).take k) :
    0 ≤ r.score_similaridade ∧ r.score_similaridade ≤ 1.7 := by
  have hr2 := List.mem_mergeSort.mp (List.take_subset _ _ hr)
  obtain ⟨e, he, rfl⟩ := List.mem_map.mp hr2
  have h2 := foldl_passo_tfidf_bounds (buscar_tfidf base consulta (k * 2)) passo1
    (fun x hx => mem_buscar_tfidf_bounds base consulta (k * 2) x hx)
    (fun e2 he2 => by rw [hp1 e2 he2]; norm_num)
  have h3 := foldl_passo_exato_bounds (buscar_exato base consulta) _
    (buscar_exato_fontes_nodup base consulta hnodup)
    (fun x hx => mem_buscar_exato_bounds base consulta x hx)
    (fun e2 he2 => ⟨(h2 e2 he2).1, le_trans (h2 e2 he2).2 (by norm_num),
      fun _ => (h2 e2 he2).2⟩)
  exact h3 e he

/-- C3 (corrected).  Each individual search method produces scores in
`[0,1]` — exact scores are intersection-over-query ratios, TF-IDF scores
are threshold-filtered cosines (Cauchy–Schwarz), category scores are
exactly `1` — but the hybrid `buscar` does NOT keep scores within
`[0,1]`: with the ×1.2 category boost and the +0.5×exact addition its
scores lie in `[0, 1.7]` (over bases whose item sources are pairwise
distinct, as the source-keyed merge presumes), and the upper end is
attained, refuting the spec's `similarity_score ∈ [0,1]` invariant for
`SearchResult`s returned by `buscar`. -/
theorem buscar_scores_limites (base : BaseConhecimentoSemantica)
    (consulta cat : String) (ctx : Option Contexto) (k : ℕ) (r : ResultadoBusca)
    (hnodup : (base.itens.map (fun i => i.fonte)).Nodup)
    (hr : r ∈ buscar base consulta ctx k) :
    (0 ≤ r.score_similaridade ∧ r.score_similaridade ≤ 1.7) ∧
    (∀ r2 ∈ buscar_exato base consulta,
      0 ≤ r2.score_similaridade ∧ r2.score_similaridade ≤ 1) ∧
    (∀ r2 ∈ buscar_tfidf base consulta k,
      0 ≤ r2.score_similaridade ∧ r2.score_similaridade ≤ 1) ∧
    (∀ r2 ∈ buscar_por_categoria base cat, r2.score_similaridade = 1) := by
  refine ⟨?_, fun r2 h => mem_buscar_exato_bounds base consulta r2 h,
    fun r2 h => mem_buscar_tfidf_bounds base consulta k r2 h,
    fun r2 h => mem_buscar_por_categoria_score base cat r2 h⟩
  unfold buscar at hr
  rcases ctx with - | c
  · exact buscar_merge_bounds base consulta k [] r hnodup (by simp) hr
  · rcases hcat : c.categoria with - | cs
    · simp only [hcat] at hr
      exact buscar_merge_bounds base consulta k [] r hnodup (by simp) hr
    · simp only [hcat] at hr
      by_cases hcs : cs ≠ ""
      · rw [if_pos hcs] at hr
        refine buscar_merge_bounds base consulta k _ r hnodup ?_ hr
        exact foldl_passo_categoria_score _ _
          (fun x hx => mem_buscar_por_categoria_score base cs x hx) (by simp)
      · rw [if_neg hcs] at hr
        exact buscar_merge_bounds base consulta k [] r hnodup (by simp) hr

theorem buscar_tfidf_eq_nil_of_sim_zero (base : BaseConhecimentoSemantica)
    (consulta : String) (k : ℕ)
    (h : ∀ idx, calcular_similaridade base.motor_tfidf consulta idx = 0) :
    buscar_tfidf base consulta k = [] := by
  unfold buscar_tfidf
  split_ifs with hb
  · rfl
  · have hnil : (List.range base.itens.length).filterMap (fun idx =>
        let score := calcular_similaridade base.motor_tfidf consulta idx
        if 0.1 < score then some (idx, score) else none) = [] := by
      rw [List.filterMap_eq_nil_iff]
      intro idx _
      dsimp only
      rw [h idx, if_neg (by norm_num)]
    simp only [hnil, List.mergeSort_nil, List.take_nil, List.map_nil]

theorem tfidf_consulta_zero_base_dupla :
    ∀ p ∈ tfidf_consulta
      (mkBase [⟨"x", "quero", "cancelar", "f1"⟩,
               ⟨"y", "banana", "laranja", "f2"⟩]).motor_tfidf "quero cancelar",
      p.2 = 0 := by
  intro p hp
  have hm : (mkBase [⟨"x", "quero", "cancelar", "f1"⟩,
      ⟨"y", "banana", "laranja", "f2"⟩]).motor_tfidf =
      construir_indice ["x quero cancelar", "y banana laranja"] := rfl
  rw [hm] at hp
  unfold tfidf_consulta at hp
  obtain ⟨t, ht, rfl⟩ := List.mem_map.mp hp
  dsimp only
  have hexp : (expandir_sinonimos (tokenizar "quero cancelar" true)).dedup =
      ["quero", "cancelar", "cancelamento", "desistir", "desistência", "anular"] := by
    decide
  rw [hexp] at ht
  have hidf : (construir_indice ["x quero cancelar", "y banana laranja"]).idf t = 0 := by
    have hdf : ((["x quero cancelar", "y banana laranja"].map
        (fun doc => tokenizar doc true)).filter
        (fun tokens => decide (t ∈ tokens))).length =
        if t ∈ (["quero", "cancelar"] : List String) then 1 else 0 := by
      fin_cases ht <;> decide
    simp only [construir_indice]
    rw [hdf]
    by_cases hq : t ∈ (["quero", "cancelar"] : List String)
    · rw [if_pos hq, if_neg (by norm_num)]
      norm_num [Real.log_one]
    · rw [if_neg hq, if_pos rfl]
  rw [hidf, mul_zero]

theorem buscar_eval_base_dupla :
    buscar (mkBase [⟨"x", "quero", "cancelar", "f1"⟩, ⟨"y", "banana", "laranja", "f2"⟩])
      "quero cancelar" (some { categoria := some "x" }) 5 =
      [⟨⟨"x", "quero", "cancelar", "f1"⟩, 1.7, "categoria"⟩] := by
  have hqz : Real.sqrt (sumSqVals (tfidf_consulta
      (mkBase [⟨"x", "quero", "cancelar", "f1"⟩,
               ⟨"y", "banana", "laranja", "f2"⟩]).motor_tfidf "quero cancelar")) = 0 := by
    rw [sqrt_sumSqVals_eq_zero_iff]
    exact sumSqVals_eq_zero_of _ tfidf_consulta_zero_base_dupla
  have hsim : ∀ idx, calcular_similaridade
      (mkBase [⟨"x", "quero", "cancelar", "f1"⟩,
               ⟨"y", "banana", "laranja", "f2"⟩]).motor_tfidf "quero cancelar" idx = 0 := by
    intro idx
    unfold calcular_similaridade
    rw [if_pos (Or.inl hqz)]
  have htf := buscar_tfidf_eq_nil_of_sim_zero
    (mkBase [⟨"x", "quero", "cancelar", "f1"⟩, ⟨"y", "banana", "laranja", "f2"⟩])
    "quero cancelar" (5 * 2) hsim
  have hcat : buscar_por_categoria
      (mkBase [⟨"x", "quero", "cancelar", "f1"⟩, ⟨"y", "banana", "laranja", "f2"⟩]) "x" =
      [⟨⟨"x", "quero", "cancelar", "f1"⟩, 1.0, "categoria"⟩] := by
    have hn1 : normalizar "x" = "x" := by decide
    have hn2 : normalizar "y" = "y" := by decide
    unfold buscar_por_categoria
    simp [mkBase, hn1, hn2]
  have hex : buscar_exato
      (mkBase [⟨"x", "quero", "cancelar", "f1"⟩, ⟨"y", "banana", "laranja", "f2"⟩])
      "quero cancelar" = [⟨⟨"x", "quero", "cancelar", "f1"⟩, 1, "exato"⟩] := by
    have ht1 : tokenizar "quero cancelar" true = ["quero", "cancelar"] := by decide
    have ht2 : tokenizar "banana laranja" true = ["banana", "laranja"] := by decide
    have happ1 : "quero" ++ " " ++ "cancelar" = "quero cancelar" := rfl
    have happ2 : "banana" ++ " " ++ "laranja" = "banana laranja" := rfl
    have hq : ({"quero", "cancelar"} : Finset String).Nonempty := by decide
    have hne2 : ¬ (({"quero", "cancelar"} : Finset String) ∩
        ({"banana", "laranja"} : Finset String)).Nonempty := by decide
    have hc2 : ({"quero", "cancelar"} : Finset String).card = 2 := by decide
    unfold buscar_exato
    norm_num [mkBase, List.filterMap_cons, ht1, ht2, happ1, happ2, hq, hne2, hc2,
      ResultadoBusca.mk.injEq]
  unfold buscar
  simp [htf, hcat, hex, passo_categoria, passo_exato, atualizar, lookup_cons_eq_ite,
    ResultadoBusca.mk.injEq]
  norm_num

/-- C3 counterexample: over the two-item base whose sources are `f1`,
`f2`, the query "quero cancelar" with context category "x" makes the
hybrid `buscar` return a single `SearchResult` of score
`1.0 × 1.2 + 1 × 0.5 = 1.7 > 1` (category boost plus exact-match
addition), violating the spec's `similarity_score ∈ [0,1]`. -/
theorem buscar_score_excede_um_counterexample :
    ((buscar (mkBase [⟨"x", "quero", "cancelar", "f1"⟩, ⟨"y", "banana", "laranja", "f2"⟩])
        "quero cancelar" (some { categoria := some "x" }) 5).map
      (fun r => r.score_similaridade)) = [1.7] ∧ ¬ ((1.7 : ℝ) ≤ 1) := by
  rw [buscar_eval_base_dupla]
  norm_num

/-- C3 witness: the bounds applied at the concrete run that attains the
hybrid maximum 1.7. -/
theorem buscar_scores_limites_witness :
    (((mkBase [⟨"x", "quero", "cancelar", "f1"⟩,
        ⟨"y", "banana", "laranja", "f2"⟩]).itens.map (fun i => i.fonte)).Nodup) ∧
    (⟨⟨"x", "quero", "cancelar", "f1"⟩, 1.7, "categoria"⟩ : ResultadoBusca) ∈
      buscar (mkBase [⟨"x", "quero", "cancelar", "f1"⟩, ⟨"y", "banana", "laranja", "f2"⟩])
        "quero cancelar" (some { categoria := some "x" }) 5 ∧
    (0 ≤ (⟨⟨"x", "quero", "cancelar", "f1"⟩, 1.7, "categoria"⟩ :
        ResultadoBusca).score_similaridade ∧
      (⟨⟨"x", "quero", "cancelar", "f1"⟩, 1.7, "categoria"⟩ :
        ResultadoBusca).score_similaridade ≤ 1.7) := by
  have hnd : (((mkBase [⟨"x", "quero", "cancelar", "f1"⟩,
      ⟨"y", "banana", "laranja", "f2"⟩]).itens.map (fun i => i.fonte)).Nodup) := by decide
  have hmem : (⟨⟨"x", "quero", "cancelar", "f1"⟩, 1.7, "categoria"⟩ : ResultadoBusca) ∈
      buscar (mkBase [⟨"x", "quero", "cancelar", "f1"⟩, ⟨"y", "banana", "laranja", "f2"⟩])
        "quero cancelar" (some { categoria := some "x" }) 5 := by
    rw [buscar_eval_base_dupla]
    exact List.mem_singleton_self _
  exact ⟨hnd, hmem,
    (buscar_scores_limites
      (mkBase [⟨"x", "quero", "cancelar", "f1"⟩, ⟨"y", "banana", "laranja", "f2"⟩])
      "quero cancelar" "x" (some { categoria := some "x" }) 5 _ hnd hmem).1⟩

theorem avaliarAux_st_eq (rs : List (Contexto → Except String (Option ResultadoPolitica)))
    (ctx : Contexto) : avaliarAux_st rs ctx = (avaliarAux rs ctx, ctx) := by
  induction rs with
  | nil => simp [avaliarAux_st, avaliarAux]
  | cons r resto ih =>
    rw [avaliarAux_cons]
    unfold avaliarAux_st
    cases h : r ctx with
    | ok v =>
      cases v with
      | some resultado => simp
      | none => simp [ih]
    | error e => simp

theorem avaliar_st_eq (ctx : Contexto) : avaliar_st ctx = (avaliar ctx, ctx) := by
  unfold avaliar_st avaliar
  exact avaliarAux_st_eq regras ctx

theorem processar_solicitacao_corpo_st_eq (ag : AgenteReembolsoV2) (c : String)
    (ctx : Contexto) :
    processar_solicitacao_corpo_st ag c ctx =
      (processar_solicitacao_corpo ag c ctx, ctx, ag.base_conhecimento) := by
  unfold processar_solicitacao_corpo_st processar_solicitacao_corpo buscar_st calcular_score_st
  rw [avaliar_st_eq]
  cases havl : avaliar ctx with
  | error e => simp [Bind.bind, Except.bind]
  | ok rp =>
    cases hsc : calcular_score ctx rp with
    | error e => simp [hsc, Bind.bind, Except.bind]
    | ok rs =>
      cases rp with
      | none => simp [hsc, Bind.bind, Except.bind, Pure.pure, Except.pure]
      | some pol =>
        by_cases hA : pol.confianca = ConfiancaNivel.ALTA
        · simp [hsc, hA, Bind.bind, Except.bind, Pure.pure, Except.pure]
        · by_cases hB : pol.confianca = ConfiancaNivel.BAIXA
          · simp [hsc, hA, hB, Bind.bind, Except.bind, Pure.pure, Except.pure]
          · simp [hsc, hA, hB, Bind.bind, Except.bind, Pure.pure, Except.pure]

/-- C10.  Processing a claim leaves its inputs unchanged: replaying the
pipeline while threading the caller's context and the knowledge base
(`processar_solicitacao_st`) returns exactly the untouched input context
and base alongside `processar_solicitacao`'s answer — rule evaluation,
scoring and every search operation read but never write them, and the
prompt enrichment writes only into the shallow copy `contexto_llm`. -/
theorem processar_solicitacao_preserva_entradas (ag : AgenteReembolsoV2)
    (c : String) (ctx : Contexto) :
    processar_solicitacao_st ag c ctx =
      (processar_solicitacao ag c ctx, ctx, ag.base_conhecimento) := by
  unfold processar_solicitacao_st processar_solicitacao tratar_excecoes
  rw [processar_solicitacao_corpo_st_eq]
  cases h : processar_solicitacao_corpo ag c ctx <;> simp [h]

end IFood
